import Mathlib

/-!
Verification development for the Pluto language core
(lexer, parser, tree-walking interpreter), a Rust repository.

Shallow embedding notes:
* Rust `i64` is modelled as `Int` (two's-complement wrap-around is abstracted;
  no claim below depends on i64 overflow).
* Rust `f64` is modelled by the type `F` below: an exact rational together
  with a NaN element.  IEEE-754 rounding and infinities are abstracted to
  exact rational arithmetic; NaN propagation, the `x == 0.0` tests, and the
  comparison semantics (NaN compares false, `!=` is the negation of `==`)
  are modelled faithfully, which is all the claims depend on.
* `HashMap` environments are modelled as association lists with
  lookup / replace-insert / remove; iteration order is never observed.
* `panic!` / `.unwrap()` on `None`, file I/O (`import`), stdin (`input`),
  the random source, the wall clock and the regex runtime engine are
  external effects: the corresponding evaluation results are `none`
  (undefined in the model).  All deterministic error paths leading up to
  them are modelled.
* stdout is modelled as a list of printed lines carried in the state.
-/

namespace Pluto

/-- An exact (not necessarily reduced) rational: integer numerator over a
positive natural denominator.  Values are compared by cross-multiplication
(`Q.beq`); the representation is never normalised, which keeps every
operation kernel-evaluable.  Every operation below preserves `0 < den`. -/
structure Q where
  num : Int
  den : Nat
deriving DecidableEq

namespace Q

/-- Numeric equality (cross-multiplication). -/
def beq (a b : Q) : Bool := a.num * (b.den : Int) == b.num * (a.den : Int)

/-- Exact addition. -/
def add (a b : Q) : Q :=
  ⟨a.num * (b.den : Int) + b.num * (a.den : Int), a.den * b.den⟩

/-- Exact subtraction. -/
def sub (a b : Q) : Q :=
  ⟨a.num * (b.den : Int) - b.num * (a.den : Int), a.den * b.den⟩

/-- Exact multiplication. -/
def mul (a b : Q) : Q := ⟨a.num * b.num, a.den * b.den⟩

/-- Exact division by a nonzero rational (sign moved to the numerator to
keep the denominator positive). -/
def div (a b : Q) : Q :=
  if b.num < 0 then ⟨-(a.num * (b.den : Int)), a.den * b.num.natAbs⟩
  else ⟨a.num * (b.den : Int), a.den * b.num.natAbs⟩

/-- Numeric strict order. -/
def lt (a b : Q) : Bool := decide (a.num * (b.den : Int) < b.num * (a.den : Int))

/-- Numeric non-strict order. -/
def le (a b : Q) : Bool := decide (a.num * (b.den : Int) ≤ b.num * (a.den : Int))

/-- Truncation toward zero. -/
def trunc (q : Q) : Int :=
  if 0 ≤ q.num then ((q.num.natAbs / q.den : Nat) : Int)
  else -((q.num.natAbs / q.den : Nat) : Int)

/-- Embed an integer. -/
def ofInt (n : Int) : Q := ⟨n, 1⟩

end Q

/-- Model of Rust `f64`: an exact rational or NaN.  Rounding and infinities
are abstracted (every claim below depends only on value variants, on the
`== 0.0` zero tests and on NaN-freeness of small-integer arithmetic). -/
inductive F where
  | num (q : Q)
  | nan
deriving DecidableEq

namespace F

/-- IEEE `==` on f64: NaN is equal to nothing (not even itself). -/
def beq : F → F → Bool
  | .num a, .num b => Q.beq a b
  | _, _ => false

/-- f64 addition (exact; NaN propagates). -/
def add : F → F → F
  | .num a, .num b => .num (Q.add a b)
  | _, _ => .nan

/-- f64 subtraction (exact; NaN propagates). -/
def sub : F → F → F
  | .num a, .num b => .num (Q.sub a b)
  | _, _ => .nan

/-- f64 multiplication (exact; NaN propagates). -/
def mul : F → F → F
  | .num a, .num b => .num (Q.mul a b)
  | _, _ => .nan

/-- f64 division.  In the interpreter this is only reached under the
`r == 0.0 → error` guard, so the zero-divisor arm is unreachable there;
we map it to NaN.  NaN propagates. -/
def div : F → F → F
  | .num a, .num b => if b.num = 0 then .nan else .num (Q.div a b)
  | _, _ => .nan

/-- f64 remainder `l % r` (truncated remainder `l - r * trunc(l / r)`).
`x % 0.0` is NaN — this is the behaviour behind the missing
modulo-by-zero check. -/
def fmod : F → F → F
  | .num a, .num b =>
    if b.num = 0 then .nan
    else .num (Q.sub a (Q.mul b (Q.ofInt (Q.trunc (Q.div a b)))))
  | _, _ => .nan

/-- IEEE `<`: false whenever NaN is involved. -/
def flt : F → F → Bool
  | .num a, .num b => Q.lt a b
  | _, _ => false

/-- IEEE `<=`: false whenever NaN is involved. -/
def fle : F → F → Bool
  | .num a, .num b => Q.le a b
  | _, _ => false

end F

/-- The f64 zero. -/
def fZero : F := .num ⟨0, 1⟩

/-- The `n as f64` (exact; the 2^53 rounding of huge i64 values is abstracted). -/
def intToF (n : Int) : F := .num (Q.ofInt n)

/-- A lexer token: (kind tag, lexeme), exactly the Rust `(String, String)`. -/
abbrev Token := String × String

/-- The `LexerError::UnexpectedCharacter { char, pos }` from
`src/core/lexer/lexer_error.rs`.  (The lexer stores the character's byte
length in `pos` — mirrored as-is.) -/
structure LexerError where
  char : Char
  pos : Nat
deriving DecidableEq

/-! ### Regex rule matchers

Each lexer rule is an anchored matcher: `matchX cs` returns the length (in
characters) of the leftmost-first regex match of rule X starting at
position 0 of `cs`, or `none` when no match starts at position 0.  This is
exactly how the Rust loop uses `regex.find` (`mat.start() == 0` filter).
Advancing by `mat.end()` bytes in Rust corresponds to dropping the matched
characters here. -/

/-- Length of the leading run of characters satisfying `p`. -/
def leadRun (p : Char → Bool) : List Char → Nat
  | [] => 0
  | c :: rest => if p c then leadRun p rest + 1 else 0

/-- First alternative (regex `|` is leftmost-first: earlier branches win)
that is a literal prefix of the input; returns its length. -/
def firstAlt (pats : List String) (cs : List Char) : Option Nat :=
  match pats with
  | [] => none
  | p :: ps => if p.toList.isPrefixOf cs then some p.length else firstAlt ps cs

/-- The `\s+` (Unicode whitespace abstracted to `Char.isWhitespace`). -/
def matchWs (cs : List Char) : Option Nat :=
  let n := leadRun (fun c => c.isWhitespace) cs
  if n = 0 then none else some n

/-- The `\n+`. -/
def matchNl (cs : List Char) : Option Nat :=
  let n := leadRun (fun c => c = '\n') cs
  if n = 0 then none else some n

/-- The `//.*` (`.` does not match `\n`). -/
def matchComment (cs : List Char) : Option Nat :=
  match cs with
  | '/' :: '/' :: rest => some (2 + leadRun (fun c => c ≠ '\n') rest)
  | _ => none

/-- The `->`. -/
def matchArrow (cs : List Char) : Option Nat := firstAlt ["->"] cs

/-- OP rule of `src/core/lexer.rs`:
`\?|\+\+|--|\+|-|\*|/|!=|==|<=|>=|<|>|&&|&|\|\|`  (no `%`). -/
def matchOpMain (cs : List Char) : Option Nat :=
  firstAlt ["?", "++", "--", "+", "-", "*", "/", "!=", "==", "<=", ">=",
            "<", ">", "&&", "&", "||"] cs

/-- OP rule of `src/core/lexer/lexer.rs`:
`\?|\+\+|--|\+|-|\*|/|!=|==|<=|>=|<|>|&&|&|%|\|\|`  (with `%`). -/
def matchOpSub (cs : List Char) : Option Nat :=
  firstAlt ["?", "++", "--", "+", "-", "*", "/", "!=", "==", "<=", ">=",
            "<", ">", "&&", "&", "%", "||"] cs

/-- The `=`. -/
def matchAssign (cs : List Char) : Option Nat := firstAlt ["="] cs

/-- A single-character literal rule (parens, braces, colon, comma, dot). -/
def matchChar (c : Char) (cs : List Char) : Option Nat :=
  match cs with
  | d :: _ => if d = c then some 1 else none
  | [] => none

/-- The `int|float|bool|string|array|void` (no word boundary, like the source). -/
def matchTypes (cs : List Char) : Option Nat :=
  firstAlt ["int", "float", "bool", "string", "array", "void"] cs

/-- The `\d+\.\d+`. -/
def matchFloat (cs : List Char) : Option Nat :=
  let d1 := leadRun (fun c => c.isDigit) cs
  if d1 = 0 then none
  else
    match (cs.drop d1) with
    | '.' :: rest =>
      let d2 := leadRun (fun c => c.isDigit) rest
      if d2 = 0 then none else some (d1 + 1 + d2)
    | _ => none

/-- The `\d+`. -/
def matchNum (cs : List Char) : Option Nat :=
  let n := leadRun (fun c => c.isDigit) cs
  if n = 0 then none else some n

/-- Backtracking body of the STRING rule
`"([^"\\]|\\.|\\\$[^{]|\$\x7b[^}]*\x7d)*"` after the opening quote:
number of characters consumed by the starred group plus the closing quote,
with greedy, leftmost-first (branch-priority) semantics. -/
def stringBody : List Char → Option Nat
  | [] => none
  | c :: rest =>
    if c = '"' then some 1
    else if c = '\\' then
      -- branch 2 `\\.` first (`.` excludes newline), then branch 3 `\\\$[^{]`
      (match rest with
       | d :: rest2 => if d ≠ '\n' then (stringBody rest2).map (· + 2) else none
       | [] => none) <|>
      (match rest with
       | '$' :: e :: rest3 =>
         if e ≠ '{' then (stringBody rest3).map (· + 3) else none
       | _ => none)
    else if c = '$' then
      -- branch 1 `[^"\\]` first, then branch 4 `\$\x7b[^}]*\x7d`
      (stringBody rest).map (· + 1) <|>
      (match rest with
       | '{' :: rest2 =>
         let k := leadRun (fun x => x ≠ '}') rest2
         (match (rest2.drop k) with
          | '}' :: _ => (stringBody (rest2.drop (k + 1))).map (· + (2 + k + 1))
          | _ => none)
       | _ => none)
    else
      -- only branch 1 `[^"\\]` can consume c
      (stringBody rest).map (· + 1)
termination_by cs => cs.length
decreasing_by
  all_goals simp [List.length_drop]
  all_goals omega

/-- The STRING rule (both lexers): opening quote, body, closing quote. -/
def matchStr (cs : List Char) : Option Nat :=
  match cs with
  | '"' :: rest => (stringBody rest).map (· + 1)
  | _ => none

/-- Index of the last `\` in `l` at an index ≥ 1, if any. -/
def lastBackslashFrom1 (l : List Char) : Option Nat :=
  (List.range l.length).foldl
    (fun acc j => if 1 ≤ j ∧ l.get? j = some '\\' then some j else acc) none

/-- The REGEX rule `\\[^/]+\\`: backslash, then a greedy non-`/` run whose
last backslash (at index ≥ 1) closes the literal. -/
def matchRegexRule (cs : List Char) : Option Nat :=
  match cs with
  | '\\' :: rest =>
    let pre := rest.takeWhile (fun c => c ≠ '/')
    (lastBackslashFrom1 pre).map (fun j => j + 2)
  | _ => none

/-- The `true|false`. -/
def matchBool (cs : List Char) : Option Nat := firstAlt ["true", "false"] cs

/-- The `[a-zA-Z_][a-zA-Z0-9_]*`. -/
def matchId (cs : List Char) : Option Nat :=
  match cs with
  | c :: rest =>
    if c.isAlpha ∨ c = '_' then
      some (1 + leadRun (fun d => d.isAlphanum ∨ d = '_') rest)
    else none
  | [] => none

/-- The ordered rule table of `src/core/lexer.rs` (`NUM`, no `%` in OP). -/
def rulesMain : List (String × (List Char → Option Nat)) :=
  [("WHITESPACE", matchWs), ("NEWLINE", matchNl), ("COMMENT", matchComment),
   ("ARROW", matchArrow), ("OP", matchOpMain), ("ASSIGN", matchAssign),
   ("LPAREN", matchChar '('), ("RPAREN", matchChar ')'),
   ("LBRACE", matchChar '{'), ("RBRACE", matchChar '}'),
   ("LBRACKET", matchChar '['), ("RBRACKET", matchChar ']'),
   ("COLON", matchChar ':'), ("COMMA", matchChar ','), ("DOT", matchChar '.'),
   ("TYPES", matchTypes), ("FLOAT", matchFloat), ("NUM", matchNum),
   ("STRING", matchStr), ("REGEX", matchRegexRule), ("BOOL", matchBool),
   ("ID", matchId)]

/-- The ordered rule table of `src/core/lexer/lexer.rs`
(`NUMBER`, `%` in OP). -/
def rulesSub : List (String × (List Char → Option Nat)) :=
  [("WHITESPACE", matchWs), ("NEWLINE", matchNl), ("COMMENT", matchComment),
   ("ARROW", matchArrow), ("OP", matchOpSub), ("ASSIGN", matchAssign),
   ("LPAREN", matchChar '('), ("RPAREN", matchChar ')'),
   ("LBRACE", matchChar '{'), ("RBRACE", matchChar '}'),
   ("LBRACKET", matchChar '['), ("RBRACKET", matchChar ']'),
   ("COLON", matchChar ':'), ("COMMA", matchChar ','), ("DOT", matchChar '.'),
   ("TYPES", matchTypes), ("FLOAT", matchFloat), ("NUMBER", matchNum),
   ("STRING", matchStr), ("REGEX", matchRegexRule), ("BOOL", matchBool),
   ("ID", matchId)]

/-- First rule (in declared order) matching at position 0, with the length
of its match — the inner `for (name, regex) in &tokens_spec` loop. -/
def firstRule (rules : List (String × (List Char → Option Nat)))
    (cs : List Char) : Option (String × Nat) :=
  match rules with
  | [] => none
  | r :: rs =>
    match r.2 cs with
    | some n => some (r.1, n)
    | none => firstRule rs cs

/-- Keyword list of `src/core/lexer.rs` (note `printf`, not `print`). -/
def keywordsMain : List String :=
  ["printf", "let", "import", "if", "else", "while", "for", "in", "random",
   "func", "return", "del", "in", "input", "to", "type", "sleep",
   "compile_all", "compile"]

/-- Keyword list of `src/core/lexer/lexer.rs` (has `print`). -/
def keywordsSub : List String :=
  ["print", "let", "import", "if", "else", "while", "for", "in", "random",
   "func", "return", "del", "in", "input", "to", "type", "sleep",
   "compile_all", "compile"]

/-- Token post-processing shared by both lexers: skip
whitespace/comment/newline classes, reclassify keyword IDs, strip the
regex delimiters. -/
def emitToken (keywords : List String) (name : String) (value : String) :
    Option Token :=
  if name = "WHITESPACE" ∨ name = "COMMENT" ∨ name = "NEWLINE" then none
  else
    let tokenType := if name = "ID" ∧ value ∈ keywords then "KEYWORD" else name
    let processed :=
      if name = "REGEX" then String.mk ((value.toList.drop 1).dropLast)
      else value
    some (tokenType, processed)

/-! ### The two lexers

The `while !remaining.is_empty()` loops advance by at least one character
per iteration (`firstRule_pos` above), so running them with
`fuel = remaining.length` is exact.  The fuel argument only makes the
recursion structural (hence kernel-evaluable); `lexLoopSub_fuel` below
proves it is semantically irrelevant. -/

/-- The lexing loop of `src/core/lexer/lexer.rs` (`lex`): accumulates
tokens and `UnexpectedCharacter` diagnostics; on an unmatched character it
records one diagnostic and advances past that character. -/
def lexLoopSub : Nat → List Char → List Token × List LexerError
  | _, [] => ([], [])
  | 0, _ :: _ => ([], [])
  | fuel + 1, c :: rest =>
    match firstRule rulesSub (c :: rest) with
    | some nl =>
      let value := String.mk ((c :: rest).take nl.2)
      let nxt := lexLoopSub fuel ((c :: rest).drop nl.2)
      match emitToken keywordsSub nl.1 value with
      | some tok => (tok :: nxt.1, nxt.2)
      | none => nxt
    | none =>
      let nxt := lexLoopSub fuel rest
      (nxt.1, { char := c, pos := c.utf8Size } :: nxt.2)

namespace SubLexer

/-- The `lex` from `src/core/lexer/lexer.rs`: returns the token list, or the
accumulated diagnostics when any character was unmatched. -/
def lex (code : String) : Except (List LexerError) (List Token) :=
  if (lexLoopSub code.toList.length code.toList).2 ≠ [] then
    .error (lexLoopSub code.toList.length code.toList).2
  else .ok (lexLoopSub code.toList.length code.toList).1

end SubLexer

/-- The lexing loop of `src/core/lexer.rs` (`lex`): same matching, but
`panic!` (modelled as `none`) on an unmatched character. -/
def lexLoopMain : Nat → List Char → Option (List Token)
  | _, [] => some []
  | 0, _ :: _ => none
  | fuel + 1, c :: rest =>
    match firstRule rulesMain (c :: rest) with
    | some nl =>
      let value := String.mk ((c :: rest).take nl.2)
      match lexLoopMain fuel ((c :: rest).drop nl.2) with
      | some ts =>
        match emitToken keywordsMain nl.1 value with
        | some tok => some (tok :: ts)
        | none => some ts
      | none => none
    | none => none

namespace MainLexer

/-- The `lex` from `src/core/lexer.rs` — the lexer `main.rs` uses.  `none`
models the `panic!("Unexpected character at: …")` on unmatched input. -/
def lex (code : String) : Option (List Token) :=
  lexLoopMain code.toList.length code.toList

end MainLexer

/-! ### AST model (`src/core/parser.rs`)

Constructor names are lower-cased (and Rust keywords adjusted) to fit
Lean; fields mirror the Rust enums.  `Regex`, `Sleep`, `Compile` and
`CompileAll` appear only in the dead `ast_nodes.rs` variant; the parser
and interpreter under test use the `AstNode` of `src/core/parser.rs`,
which is what we embed. -/

/-- The `Type` from `src/core/parser.rs` (named `Ty` here: `Type` is taken). -/
inductive Ty where
  | int
  | float
  | bool
  | string
  | array
  | void
deriving DecidableEq

/-- The `Param` from `src/core/parser.rs`. -/
structure Param where
  name : String
  param_type : Option Ty
deriving DecidableEq

/-- The `AstNode` from `src/core/parser.rs`, together with the `Regex`,
`Sleep`, `Compile` and `CompileAll` variants that
`src/core/interpreter.rs` dispatches on (they appear in the
`ast_nodes.rs` version of the enum; the parser never produces them). -/
inductive AstNode where
  | number (n : Int)
  | float (f : F)
  | string (s : String)
  | regex (r : String)
  | boolean (b : Bool)
  | array (elements : List AstNode)
  | void
  | index (array : AstNode) (idx : AstNode)
  | methodCall (object : AstNode) (method : String) (args : List AstNode)
  | identifier (name : String)
  | ifStmt (condition : AstNode) (body : List AstNode)
      (else_body : Option (List AstNode))
  | print (left : AstNode)
  | letStmt (name : String) (is_const : Bool) (var_type : Option Ty)
      (var_value : AstNode)
  | imp (path : String)
  | input (placeholder : String)
  | random (left : AstNode) (right : AstNode)
  | delete (e : AstNode)
  | binaryOp (op : String) (left : AstNode) (right : AstNode)
  | unaryOpTT (op : String) (var : AstNode)
  | assign (left : AstNode) (right : AstNode)
  | whileStmt (condition : AstNode) (body : List AstNode)
  | forStmt (init : AstNode) (condition : AstNode) (increment : AstNode)
      (body : List AstNode)
  | forIn (var : String) (iterable : AstNode) (body : List AstNode)
  | ret (e : AstNode)
  | function (name : String) (params : List Param) (body : List AstNode)
  | functionCall (name : String) (args : List AstNode)
  | toType (types : Ty) (e : AstNode)
  | typeFunc (e : AstNode)
  | sleepStmt (e : AstNode)
  | compile (e : AstNode) (rgx : AstNode)
  | compileAll (e : AstNode) (rgx : AstNode)

/-! ### Parser (`src/core/parser.rs`)

The Rust parser is a struct holding the token vector and a cursor `pos`;
its methods return `Result<_, String>` and advance `pos`.  We model the
struct as `PState` and each method as a function `PState → …`.  The
`while`/`loop` constructs inside methods and the mutual recursion between
methods are made total with a fuel argument, decremented on entry to
every function of the mutual block; `none` means fuel exhaustion (which
concrete theorems below never hit) or a Rust `panic!` (the two
`.unwrap()` calls on `current_token()` flagged below). -/

/-- The parser state: `Parser { tokens, pos }`. -/
structure PState where
  tokens : List Token
  pos : Nat
deriving DecidableEq

/-- The `Parser::current_token`. -/
def current_token (st : PState) : Option Token := st.tokens.get? st.pos

/-- Rust `{:?}` rendering of `Option<&(String, String)>` used in parser
error messages (escaping inside the strings is abstracted). -/
def reprOptToken : Option Token → String
  | none => "None"
  | some (t, v) => "Some((\"" ++ t ++ "\", \"" ++ v ++ "\"))"

/-- The `Parser::consume`: take the current token if its kind matches. -/
def consume (st : PState) (expected : String) :
    Except String (String × PState) :=
  match current_token st with
  | some (tokenType, tokenValue) =>
    if tokenType = expected then
      .ok (tokenValue, { st with pos := st.pos + 1 })
    else
      .error ("Expected " ++ expected ++ ", found " ++
        reprOptToken (current_token st))
  | none =>
    .error ("Expected " ++ expected ++ ", found " ++
      reprOptToken (current_token st))

/-- The `Parser::peek_op`. -/
def peek_op (st : PState) : Except String String :=
  match current_token st with
  | some (t, v) => if t = "OP" then .ok v else .error "Expected operator"
  | none => .error "Expected operator"

/-- The `Parser::parse_type`. -/
def parse_type (st : PState) : Except String (Ty × PState) :=
  match consume st "TYPES" with
  | .error e => .error e
  | .ok (typeStr, st1) =>
    if typeStr = "int" then .ok (.int, st1)
    else if typeStr = "float" then .ok (.float, st1)
    else if typeStr = "bool" then .ok (.bool, st1)
    else if typeStr = "string" then .ok (.string, st1)
    else if typeStr = "array" then .ok (.array, st1)
    else if typeStr = "void" then .ok (.void, st1)
    else .error ("Unknown type: " ++ typeStr)

/-- The `Parser::parse_param`. -/
def parse_param (st : PState) : Except String (Param × PState) :=
  match consume st "ID" with
  | .error e => .error e
  | .ok (name, st1) =>
    match current_token st1 with
    | some (tokenType, _) =>
      if tokenType = "COLON" then
        match consume st1 "COLON" with
        | .error e => .error e
        | .ok (_, st2) =>
          match parse_type st2 with
          | .error e => .error e
          | .ok (t, st3) => .ok ({ name := name, param_type := some t }, st3)
      else .ok ({ name := name, param_type := none }, st1)
    | none => .ok ({ name := name, param_type := none }, st1)

/-- Decimal digits to a natural number. -/
def digitsToNat (cs : List Char) : Nat :=
  cs.foldl (fun n c => n * 10 + (c.toNat - '0'.toNat)) 0

/-- Rust `i64::from_str`: optional sign then digits; overflow is an error
(i64 magnitude bound mirrored; error strings are those of Rust core). -/
def parseI64 (s : String) : Except String Int :=
  let sd : Int × List Char :=
    match s.toList with
    | '-' :: rest => (-1, rest)
    | '+' :: rest => (1, rest)
    | cs => (1, cs)
  if sd.2 = [] ∨ ¬ sd.2.all (fun c => c.isDigit) then
    .error "invalid digit found in string"
  else
    let n : Int := sd.1 * (digitsToNat sd.2 : Int)
    if n < -9223372036854775808 ∨ 9223372036854775807 < n then
      .error "number too large to fit in target type"
    else .ok n

/-- Rust `f64::from_str` on lexer FLOAT lexemes (`\d+\.\d+`), modelled
exactly on that shape (value exact as a rational); other shapes — never
produced by the lexer — err. -/
def parseF64 (s : String) : Except String F :=
  let intPart := s.toList.takeWhile (fun c => c ≠ '.')
  let rest := s.toList.dropWhile (fun c => c ≠ '.')
  match rest with
  | '.' :: fracPart =>
    if intPart ≠ [] ∧ fracPart ≠ [] ∧
        intPart.all (fun c => c.isDigit) ∧ fracPart.all (fun c => c.isDigit)
    then
      .ok (.num ⟨(digitsToNat intPart : Int) * (10 ^ fracPart.length : Nat) +
        (digitsToNat fracPart : Int), 10 ^ fracPart.length⟩)
    else .error "invalid float literal"
  | _ => .error "invalid float literal"

/-- Rust `bool::from_str` (used on BOOL lexemes). -/
def parseBoolLit (s : String) : Except String Bool :=
  if s = "true" then .ok true
  else if s = "false" then .ok false
  else .error "provided string was not `true` or `false`"

/-- Parser results: `none` is fuel exhaustion or a Rust `panic!`;
`some (.error e)` a `Result::Err`; `some (.ok (a, st))` success with the
advanced cursor. -/
abbrev PRes (α : Type) := Option (Except String (α × PState))

/-- Monadic glue for `PRes`. -/
def pbind {α β : Type} (x : PRes α) (f : α → PState → PRes β) : PRes β :=
  match x with
  | none => none
  | some (.error e) => some (.error e)
  | some (.ok (a, st)) => f a st

/-- Lift the non-recursive `Except`-returning helpers into `PRes`. -/
def ebind {α β : Type} (x : Except String (α × PState))
    (f : α → PState → PRes β) : PRes β :=
  match x with
  | .error e => some (.error e)
  | .ok (a, st) => f a st

mutual

/-- The `Parser::parse`: the top-level `while self.pos < self.tokens.len()`
loop collecting expressions. -/
def parse : Nat → PState → PRes (List AstNode)
  | 0, _ => none
  | fuel + 1, st =>
    if st.pos < st.tokens.length then
      pbind (parse_expr fuel st) fun node st1 =>
        pbind (parse fuel st1) fun nodes st2 => some (.ok (node :: nodes, st2))
    else some (.ok ([], st))

/-- The `Parser::parse_expr` (lowest level: `+`, `-`, postfix `++`/`--`, and
right-associative assignment). -/
def parse_expr : Nat → PState → PRes AstNode
  | 0, _ => none
  | fuel + 1, st =>
    pbind (parse_term fuel st) fun node st1 => exprLoop fuel node st1

/-- The `loop` inside `parse_expr`. -/
def exprLoop : Nat → AstNode → PState → PRes AstNode
  | 0, _, _ => none
  | fuel + 1, node, st =>
    match current_token st with
    | some (tokenType, tokenValue) =>
      if tokenType = "OP" ∧ (tokenValue = "+" ∨ tokenValue = "-") then
        ebind (consume st "OP") fun op st1 =>
          pbind (parse_term fuel st1) fun right st2 =>
            exprLoop fuel (.binaryOp op node right) st2
      else if tokenType = "OP" ∧ (tokenValue = "++" ∨ tokenValue = "--") then
        ebind (consume st "OP") fun op st1 =>
          exprLoop fuel (.unaryOpTT op node) st1
      else if tokenType = "ASSIGN" then
        ebind (consume st "ASSIGN") fun _ st1 =>
          pbind (parse_expr fuel st1) fun right st2 =>
            exprLoop fuel (.assign node right) st2
      else some (.ok (node, st))
    | none => some (.ok (node, st))

/-- The `Parser::parse_term` (`*`, `/`). -/
def parse_term : Nat → PState → PRes AstNode
  | 0, _ => none
  | fuel + 1, st =>
    pbind (parse_comparison fuel st) fun node st1 => termLoop fuel node st1

/-- The `loop` inside `parse_term`. -/
def termLoop : Nat → AstNode → PState → PRes AstNode
  | 0, _, _ => none
  | fuel + 1, node, st =>
    match current_token st with
    | some (tokenType, tokenValue) =>
      if tokenType = "OP" ∧ (tokenValue = "*" ∨ tokenValue = "/") then
        ebind (consume st "OP") fun op st1 =>
          pbind (parse_comparison fuel st1) fun right st2 =>
            termLoop fuel (.binaryOp op node right) st2
      else some (.ok (node, st))
    | none => some (.ok (node, st))

/-- The `Parser::parse_comparison` (the flat `==`, `!=`, `<`, `>`, `<=`, `>=`,
`&&`, `||` band — the tightest-binding binary level). -/
def parse_comparison : Nat → PState → PRes AstNode
  | 0, _ => none
  | fuel + 1, st =>
    pbind (parse_factor fuel st) fun node st1 => compLoop fuel node st1

/-- The `loop` inside `parse_comparison`. -/
def compLoop : Nat → AstNode → PState → PRes AstNode
  | 0, _, _ => none
  | fuel + 1, node, st =>
    match current_token st with
    | some (tokenType, tokenValue) =>
      if tokenType = "OP" ∧
          (tokenValue = "==" ∨ tokenValue = "!=" ∨ tokenValue = "<" ∨
           tokenValue = ">" ∨ tokenValue = "<=" ∨ tokenValue = ">=" ∨
           tokenValue = "&&" ∨ tokenValue = "||") then
        ebind (consume st "OP") fun op st1 =>
          pbind (parse_factor fuel st1) fun right st2 =>
            compLoop fuel (.binaryOp op node right) st2
      else some (.ok (node, st))
    | none => some (.ok (node, st))

/-- The `Parser::parse_block`: `{ … }`. -/
def parse_block : Nat → PState → PRes (List AstNode)
  | 0, _ => none
  | fuel + 1, st =>
    ebind (consume st "LBRACE") fun _ st1 =>
      pbind (blockItems fuel st1) fun nodes st2 =>
        ebind (consume st2 "RBRACE") fun _ st3 => some (.ok (nodes, st3))

/-- The `while let Some(…)` statement loop inside `parse_block`. -/
def blockItems : Nat → PState → PRes (List AstNode)
  | 0, _ => none
  | fuel + 1, st =>
    match current_token st with
    | some (tokenType, _) =>
      if tokenType = "RBRACE" then some (.ok ([], st))
      else
        pbind (parse_expr fuel st) fun node st1 =>
          pbind (blockItems fuel st1) fun nodes st2 =>
            some (.ok (node :: nodes, st2))
    | none => some (.ok ([], st))

/-- The `Parser::parse_optional_else`. -/
def parse_optional_else : Nat → PState → PRes (Option (List AstNode))
  | 0, _ => none
  | fuel + 1, st =>
    match current_token st with
    | some (tType, tValue) =>
      if tType = "KEYWORD" ∧ tValue = "else" then
        ebind (consume st "KEYWORD") fun _ st1 =>
          pbind (parse_block fuel st1) fun body st2 =>
            some (.ok (some body, st2))
      else some (.ok (none, st))
    | none => some (.ok (none, st))

/-- The `Parser::parse_function` (`func NAME(params) [-> TYPE] { … }`; the
return type is parsed and discarded). -/
def parse_function : Nat → PState → PRes AstNode
  | 0, _ => none
  | fuel + 1, st =>
    ebind (consume st "ID") fun name st1 =>
      ebind (consume st1 "LPAREN") fun _ st2 =>
        pbind
          (match current_token st2 with
           | some (tokenType, _) =>
             if tokenType ≠ "RPAREN" then
               ebind (parse_param st2) fun p st3 =>
                 pbind (paramsLoop fuel st3) fun ps st4 =>
                   some (.ok (p :: ps, st4))
             else some (.ok ([], st2))
           | none => some (.ok ([], st2)))
          fun params st5 =>
            ebind (consume st5 "RPAREN") fun _ st6 =>
              pbind
                (match current_token st6 with
                 | some (tokenType, _) =>
                   if tokenType = "ARROW" then
                     ebind (consume st6 "ARROW") fun _ st7 =>
                       ebind (parse_type st7) fun _ st8 => some (.ok ((), st8))
                   else some (.ok ((), st6))
                 | none => some (.ok ((), st6)))
                fun _ st9 =>
                  pbind (parse_block fuel st9) fun body st10 =>
                    some (.ok (.function name params body, st10))

/-- The parameter loop inside `parse_function`. -/
def paramsLoop : Nat → PState → PRes (List Param)
  | 0, _ => none
  | fuel + 1, st =>
    match current_token st with
    | some (tokenType, _) =>
      if tokenType = "RPAREN" then some (.ok ([], st))
      else
        ebind (consume st "COMMA") fun _ st1 =>
          ebind (parse_param st1) fun p st2 =>
            pbind (paramsLoop fuel st2) fun ps st3 => some (.ok (p :: ps, st3))
    | none => some (.ok ([], st))

/-- The `Parser::parse_return`. -/
def parse_return : Nat → PState → PRes AstNode
  | 0, _ => none
  | fuel + 1, st =>
    pbind (parse_expr fuel st) fun e st1 => some (.ok (.ret e, st1))

/-- The `Parser::parse_for`: `ID in EXPR` emits ForIn; otherwise backtracks
(`self.pos -= 1`) and parses the three-expression header.  (When an ID is
followed by a non-`in` keyword the source rewinds only one token — the
quirk is mirrored.) -/
def parse_for : Nat → PState → PRes AstNode
  | 0, _ => none
  | fuel + 1, st =>
    ebind (consume st "LPAREN") fun _ st1 =>
      match current_token st1 with
      | some ("ID", _) =>
        ebind (consume st1 "ID") fun id st2 =>
          match current_token st2 with
          | some ("KEYWORD", _) =>
            ebind (consume st2 "KEYWORD") fun keyword st3 =>
              if keyword = "in" then
                pbind (parse_expr fuel st3) fun iterable st4 =>
                  ebind (consume st4 "RPAREN") fun _ st5 =>
                    pbind (parse_block fuel st5) fun body st6 =>
                      some (.ok (.forIn id iterable body, st6))
              else
                forTail fuel { st3 with pos := st3.pos - 1 }
          | _ => forTail fuel { st2 with pos := st2.pos - 1 }
      | _ => forTail fuel st1

/-- The three-expression `for` header and body (after any backtracking). -/
def forTail : Nat → PState → PRes AstNode
  | 0, _ => none
  | fuel + 1, st =>
    pbind (parse_expr fuel st) fun init st1 =>
      ebind (consume st1 "COMMA") fun _ st2 =>
        pbind (parse_expr fuel st2) fun condition st3 =>
          ebind (consume st3 "COMMA") fun _ st4 =>
            pbind (parse_expr fuel st4) fun increment st5 =>
              ebind (consume st5 "RPAREN") fun _ st6 =>
                pbind (parse_block fuel st6) fun body st7 =>
                  some (.ok (.forStmt init condition increment body, st7))

/-- The `Parser::parse_delete`. -/
def parse_delete : Nat → PState → PRes AstNode
  | 0, _ => none
  | fuel + 1, st =>
    ebind (consume st "LPAREN") fun _ st1 =>
      pbind (parse_expr fuel st1) fun e st2 =>
        ebind (consume st2 "RPAREN") fun _ st3 => some (.ok (.delete e, st3))

/-- The `Parser::parse_array`. -/
def parse_array : Nat → PState → PRes AstNode
  | 0, _ => none
  | fuel + 1, st =>
    ebind (consume st "LBRACKET") fun _ st1 =>
      pbind
        (match current_token st1 with
         | some (tokenType, _) =>
           if tokenType ≠ "RBRACKET" then
             pbind (parse_expr fuel st1) fun e st2 =>
               pbind (arrayItems fuel st2) fun es st3 =>
                 some (.ok (e :: es, st3))
           else some (.ok ([], st1))
         | none => some (.ok ([], st1)))
        fun exprs st4 =>
          ebind (consume st4 "RBRACKET") fun _ st5 =>
            some (.ok (.array exprs, st5))

/-- The element loop inside `parse_array`. -/
def arrayItems : Nat → PState → PRes (List AstNode)
  | 0, _ => none
  | fuel + 1, st =>
    match current_token st with
    | some (tokenType, _) =>
      if tokenType = "RBRACKET" then some (.ok ([], st))
      else
        ebind (consume st "COMMA") fun _ st1 =>
          pbind (parse_expr fuel st1) fun e st2 =>
            pbind (arrayItems fuel st2) fun es st3 => some (.ok (e :: es, st3))
    | none => some (.ok ([], st))

/-- The `Parser::parse_to`. -/
def parse_to : Nat → PState → PRes AstNode
  | 0, _ => none
  | fuel + 1, st =>
    ebind (consume st "LPAREN") fun _ st1 =>
      ebind (parse_type st1) fun types st2 =>
        ebind (consume st2 "COMMA") fun _ st3 =>
          pbind (parse_expr fuel st3) fun e st4 =>
            ebind (consume st4 "RPAREN") fun _ st5 =>
              some (.ok (.toType types e, st5))

/-- The `Parser::parse_type_func`. -/
def parse_type_func : Nat → PState → PRes AstNode
  | 0, _ => none
  | fuel + 1, st =>
    ebind (consume st "LPAREN") fun _ st1 =>
      pbind (parse_expr fuel st1) fun e st2 =>
        ebind (consume st2 "RPAREN") fun _ st3 =>
          some (.ok (.typeFunc e, st3))

/-- The `Parser::parse_factor`: base element, then the `[idx]` / `.method(…)`
suffix loop.  The ID branch's `return` statements bypass the suffix loop
(flag `true` from `parse_factor_core`), exactly as in the source. -/
def parse_factor : Nat → PState → PRes AstNode
  | 0, _ => none
  | fuel + 1, st =>
    pbind (parse_factor_core fuel st) fun nodeEarly st1 =>
      if nodeEarly.2 then some (.ok (nodeEarly.1, st1))
      else factorSuffix fuel nodeEarly.1 st1

/-- The head `match` of `parse_factor`; the `Bool` marks the source's
early `return`s (function calls and `?`-conditionals), which skip the
suffix loop. -/
def parse_factor_core : Nat → PState → PRes (AstNode × Bool)
  | 0, _ => none
  | fuel + 1, st =>
    match current_token st with
    | none => some (.error "Unexpected end of input")
    | some (tokenType, _tokenValue) =>
      if tokenType = "KEYWORD" then
        ebind (consume st "KEYWORD") fun keyword st1 =>
          if keyword = "printf" then
            ebind (consume st1 "LPAREN") fun _ st2 =>
              pbind (parse_expr fuel st2) fun e st3 =>
                ebind (consume st3 "RPAREN") fun _ st4 =>
                  some (.ok ((.print e, false), st4))
          else if keyword = "let" then
            ebind (consume st1 "ID") fun name st2 =>
              pbind
                (match current_token st2 with
                 | some (tokenType2, _) =>
                   if tokenType2 = "COLON" then
                     ebind (consume st2 "COLON") fun _ st3 =>
                       ebind (parse_type st3) fun t st4 =>
                         match current_token st4 with
                         | some (nextType, tokenValue2) =>
                           if nextType = "OP" ∧ tokenValue2 = "&" then
                             ebind (consume st4 "OP") fun _ st5 =>
                               some (.ok ((some t, true), st5))
                           else some (.ok ((some t, false), st4))
                         | none => some (.ok ((some t, false), st4))
                   else some (.ok (((none : Option Ty), false), st2))
                 | none => some (.ok (((none : Option Ty), false), st2)))
                fun typeConst st6 =>
                  ebind (consume st6 "ASSIGN") fun _ st7 =>
                    pbind (parse_expr fuel st7) fun varValue st8 =>
                      match typeConst.1 with
                      | some t =>
                        some (.ok ((.letStmt name typeConst.2 (some t)
                          varValue, false), st8))
                      | none =>
                        match varValue with
                        | .array _ => some (.ok ((.letStmt name typeConst.2
                            (some .array) varValue, false), st8))
                        | .string _ => some (.ok ((.letStmt name typeConst.2
                            (some .string) varValue, false), st8))
                        | .number _ => some (.ok ((.letStmt name typeConst.2
                            (some .int) varValue, false), st8))
                        | .boolean _ => some (.ok ((.letStmt name typeConst.2
                            (some .bool) varValue, false), st8))
                        | .float _ => some (.ok ((.letStmt name typeConst.2
                            (some .float) varValue, false), st8))
                        | _ => some (.error "Unknown variable type")
          else if keyword = "import" then
            ebind (consume st1 "STRING") fun path st2 =>
              some (.ok ((.imp path, false), st2))
          else if keyword = "input" then
            ebind (consume st1 "LPAREN") fun _ st2 =>
              ebind (consume st2 "STRING") fun name st3 =>
                ebind (consume st3 "RPAREN") fun _ st4 =>
                  some (.ok ((.input name, false), st4))
          else if keyword = "if" then
            ebind (consume st1 "LPAREN") fun _ st2 =>
              pbind (parse_expr fuel st2) fun condition st3 =>
                ebind (consume st3 "RPAREN") fun _ st4 =>
                  pbind (parse_block fuel st4) fun body st5 =>
                    pbind
                      (match current_token st5 with
                       | some (tType, tValue) =>
                         if tType = "KEYWORD" ∧ tValue = "else" then
                           ebind (consume st5 "KEYWORD") fun _ st6 =>
                             pbind (parse_block fuel st6) fun eb st7 =>
                               some (.ok (some eb, st7))
                         else some (.ok ((none : Option (List AstNode)), st5))
                       | none =>
                         some (.ok ((none : Option (List AstNode)), st5)))
                      fun elseBody st8 =>
                        some (.ok ((.ifStmt condition body elseBody, false),
                          st8))
          else if keyword = "while" then
            ebind (consume st1 "LPAREN") fun _ st2 =>
              pbind (parse_expr fuel st2) fun condition st3 =>
                ebind (consume st3 "RPAREN") fun _ st4 =>
                  pbind (parse_block fuel st4) fun body st5 =>
                    some (.ok ((.whileStmt condition body, false), st5))
          else if keyword = "for" then
            pbind (parse_for fuel st1) fun node st2 =>
              some (.ok ((node, false), st2))
          else if keyword = "random" then
            ebind (consume st1 "LPAREN") fun _ st2 =>
              pbind (parse_expr fuel st2) fun left st3 =>
                ebind (consume st3 "COMMA") fun _ st4 =>
                  pbind (parse_expr fuel st4) fun right st5 =>
                    ebind (consume st5 "RPAREN") fun _ st6 =>
                      some (.ok ((.random left right, false), st6))
          else if keyword = "return" then
            pbind (parse_return fuel st1) fun node st2 =>
              some (.ok ((node, false), st2))
          else if keyword = "del" then
            pbind (parse_delete fuel st1) fun node st2 =>
              some (.ok ((node, false), st2))
          else if keyword = "func" then
            pbind (parse_function fuel st1) fun node st2 =>
              some (.ok ((node, false), st2))
          else if keyword = "to" then
            pbind (parse_to fuel st1) fun node st2 =>
              some (.ok ((node, false), st2))
          else if keyword = "type" then
            pbind (parse_type_func fuel st1) fun node st2 =>
              some (.ok ((node, false), st2))
          else some (.error ("Unexpected keyword: " ++ keyword))
      else if tokenType = "BOOL" then
        ebind (consume st "BOOL") fun boolStr st1 =>
          match parseBoolLit boolStr with
          | .ok b => some (.ok ((.boolean b, false), st1))
          | .error e => some (.error e)
      else if tokenType = "LPAREN" then
        ebind (consume st "LPAREN") fun _ st1 =>
          pbind (parse_expr fuel st1) fun e st2 =>
            ebind (consume st2 "RPAREN") fun _ st3 =>
              some (.ok ((e, false), st3))
      else if tokenType = "LBRACKET" then
        pbind (parse_array fuel st) fun node st1 =>
          some (.ok ((node, false), st1))
      else if tokenType = "STRING" then
        ebind (consume st "STRING") fun s st1 =>
          some (.ok ((.string s, false), st1))
      else if tokenType = "NUM" then
        ebind (consume st "NUM") fun numStr st1 =>
          match parseI64 numStr with
          | .ok n => some (.ok ((.number n, false), st1))
          | .error e => some (.error e)
      else if tokenType = "FLOAT" then
        ebind (consume st "FLOAT") fun floatStr st1 =>
          match parseF64 floatStr with
          | .ok f => some (.ok ((.float f, false), st1))
          | .error e => some (.error e)
      else if tokenType = "ID" then
        ebind (consume st "ID") fun id st1 =>
          match current_token st1 with
          | some ("LPAREN", _) =>
            ebind (consume st1 "LPAREN") fun _ st2 =>
              pbind (callArgs fuel st2) fun args st3 =>
                ebind (consume st3 "RPAREN") fun _ st4 =>
                  match current_token st4 with
                  | some ("OP", _) =>
                    (match peek_op st4 with
                     | .error e => some (.error e)
                     | .ok op =>
                       if op = "?" then
                         ebind (consume st4 "OP") fun _ st5 =>
                           pbind (parse_block fuel st5) fun body st6 =>
                             pbind (parse_optional_else fuel st6)
                               fun elseBody st7 =>
                                 some (.ok ((.ifStmt
                                   (.functionCall id args) body elseBody,
                                   true), st7))
                       else
                         some (.ok ((.functionCall id args, true), st4)))
                  | _ => some (.ok ((.functionCall id args, true), st4))
          | some ("OP", _) =>
            (match peek_op st1 with
             | .error e => some (.error e)
             | .ok op =>
               if op = "?" then
                 ebind (consume st1 "OP") fun _ st2 =>
                   pbind (parse_block fuel st2) fun body st3 =>
                     pbind (parse_optional_else fuel st3) fun elseBody st4 =>
                       some (.ok ((.ifStmt (.identifier id) body elseBody,
                         true), st4))
               else some (.ok ((.identifier id, false), st1)))
          | _ => some (.ok ((.identifier id, false), st1))
      else
        some (.error ("Unexpected token: " ++ reprOptToken (current_token st)))

/-- The argument loop of an ID-led function call (note: the source only
consumes a COMMA when one is present, so commas are effectively
optional). -/
def callArgs : Nat → PState → PRes (List AstNode)
  | 0, _ => none
  | fuel + 1, st =>
    match current_token st with
    | none => some (.ok ([], st))
    | some (tokenType, _) =>
      if tokenType = "RPAREN" then some (.ok ([], st))
      else
        pbind (parse_expr fuel st) fun arg st1 =>
          pbind
            (match current_token st1 with
             | some ("COMMA", _) =>
               ebind (consume st1 "COMMA") fun _ st2 => some (.ok ((), st2))
             | _ => some (.ok ((), st1)))
            fun _ st3 =>
              pbind (callArgs fuel st3) fun args st4 =>
                some (.ok (arg :: args, st4))

/-- The `[idx]` / `.method(args)` suffix loop at the end of
`parse_factor`.  (The `.method` arm `unwrap`s `current_token()`, which
panics at end of input — modelled as `none`.) -/
def factorSuffix : Nat → AstNode → PState → PRes AstNode
  | 0, _, _ => none
  | fuel + 1, node, st =>
    match current_token st with
    | some ("LBRACKET", _) =>
      ebind (consume st "LBRACKET") fun _ st1 =>
        pbind (parse_expr fuel st1) fun idx st2 =>
          ebind (consume st2 "RBRACKET") fun _ st3 =>
            factorSuffix fuel (.index node idx) st3
    | some ("DOT", _) =>
      ebind (consume st "DOT") fun _ st1 =>
        ebind (consume st1 "ID") fun method st2 =>
          ebind (consume st2 "LPAREN") fun _ st3 =>
            pbind
              (match current_token st3 with
               | none => none
               | some (tokenType, _) =>
                 if tokenType ≠ "RPAREN" then
                   pbind (parse_expr fuel st3) fun a st4 =>
                     pbind (methodArgs fuel st4) fun as1 st5 =>
                       some (.ok (a :: as1, st5))
                 else some (.ok ([], st3)))
              fun args st6 =>
                ebind (consume st6 "RPAREN") fun _ st7 =>
                  factorSuffix fuel (.methodCall node method args) st7
    | _ => some (.ok (node, st))

/-- The comma-separated argument loop inside the `.method(args)` arm
(`while self.current_token().unwrap().0 == "COMMA"`; the `unwrap` panics
at end of input — modelled as `none`). -/
def methodArgs : Nat → PState → PRes (List AstNode)
  | 0, _ => none
  | fuel + 1, st =>
    match current_token st with
    | none => none
    | some (tokenType, _) =>
      if tokenType = "COMMA" then
        ebind (consume st "COMMA") fun _ st1 =>
          pbind (parse_expr fuel st1) fun a st2 =>
            pbind (methodArgs fuel st2) fun as1 st3 =>
              some (.ok (a :: as1, st3))
      else some (.ok ([], st))

end

/-- The `Parser::new(tokens).parse()`. -/
def parseProgram (fuel : Nat) (tokens : List Token) :
    Option (Except String (List AstNode)) :=
  match parse fuel { tokens := tokens, pos := 0 } with
  | none => none
  | some (.error e) => some (.error e)
  | some (.ok (nodes, _)) => some (.ok nodes)

/-! ### Runtime value model (`src/core/interpreter.rs`) -/

/-- The `MatchResult` (the `end` field is `stop` here: `end` is reserved). -/
structure MatchResult where
  text : String
  start : Nat
  stop : Nat

/-- The `RuntimeValue` from `src/core/interpreter.rs` (constructors
lower-cased). -/
inductive RuntimeValue where
  | number (n : Int)
  | float (f : F)
  | string (s : String)
  | regex (r : String)
  | boolean (b : Bool)
  | array (elements : List RuntimeValue)
  | void
  | matchValue (m : MatchResult)
  | returnValue (v : RuntimeValue)
  | constValue (v : RuntimeValue)
  | matchArray (ms : List MatchResult)

/-- Derived `PartialEq` on `MatchResult`. -/
def mrBeq (a b : MatchResult) : Bool :=
  a.text == b.text && a.start == b.start && a.stop == b.stop

/-- Derived `PartialEq` on `Vec<MatchResult>`. -/
def mrListBeq : List MatchResult → List MatchResult → Bool
  | [], [] => true
  | a :: as1, b :: bs => mrBeq a b && mrListBeq as1 bs
  | _, _ => false

mutual

/-- The derived `PartialEq` on `RuntimeValue` (f64 fields compare IEEE:
NaN equals nothing). -/
def rvBeq : RuntimeValue → RuntimeValue → Bool
  | .number a, .number b => a == b
  | .float a, .float b => F.beq a b
  | .string a, .string b => a == b
  | .regex a, .regex b => a == b
  | .boolean a, .boolean b => a == b
  | .array a, .array b => rvListBeq a b
  | .void, .void => true
  | .matchValue a, .matchValue b => mrBeq a b
  | .returnValue a, .returnValue b => rvBeq a b
  | .constValue a, .constValue b => rvBeq a b
  | .matchArray a, .matchArray b => mrListBeq a b
  | _, _ => false

/-- Elementwise `PartialEq` on `Vec<RuntimeValue>`. -/
def rvListBeq : List RuntimeValue → List RuntimeValue → Bool
  | [], [] => true
  | a :: as1, b :: bs => rvBeq a b && rvListBeq as1 bs
  | _, _ => false

end

/-- The `Vec::contains` (via `PartialEq`). -/
def rvContains (l : List RuntimeValue) (x : RuntimeValue) : Bool :=
  l.any (fun y => rvBeq y x)

/-! ### Environment (`HashMap<String, _>`) as an association list -/

/-- The `HashMap::get`. -/
def alookup {α : Type} : List (String × α) → String → Option α
  | [], _ => none
  | (k1, v) :: rest, k => if k1 = k then some v else alookup rest k

/-- The `HashMap::remove` (drops the key's entry). -/
def aerase {α : Type} (k : String) : List (String × α) → List (String × α)
  | [] => []
  | (k1, v) :: rest =>
    if k1 = k then aerase k rest else (k1, v) :: aerase k rest

/-- The `HashMap::insert` (replaces any existing entry for the key). -/
def ainsert {α : Type} (k : String) (v : α) (m : List (String × α)) :
    List (String × α) :=
  (k, v) :: aerase k m

/-- The interpreter state: `Interpreter { variables, functions }` plus the
stdout lines it has printed.  (The `variables` field is `vars` here:
`variables` is a reserved Lean command.) -/
structure St where
  vars : List (String × RuntimeValue)
  functions : List (String × (List String × List AstNode))
  output : List String

/-- An evaluation step result: Rust's `Result<RuntimeValue, String>`
together with the (mutated-in-place) interpreter state, which persists
across an `Err` in Rust. -/
inductive Step (α : Type) where
  | ok (a : α) (st : St)
  | err (msg : String) (st : St)

/-- Interpreter results: `none` is fuel exhaustion or an unmodelled
external effect (file/stdin/RNG/regex engine/panic). -/
abbrev IRes (α : Type) := Option (Step α)

/-- Monadic glue for `IRes` (`?` propagation threading the state). -/
def ibind {α β : Type} (x : IRes α) (f : α → St → IRes β) : IRes β :=
  match x with
  | none => none
  | some (.err e st) => some (.err e st)
  | some (.ok a st) => f a st

/-! ### Rendering (`print`/`print_value`/`print_array`) -/

/-- Rust `bool` `Display`. -/
def boolStr (b : Bool) : String := if b then "true" else "false"

/-- Rust `f64` `Display`, abstracted: integral values print with no
fractional part (`5.0` prints as `5`), which is the only case the claims
exercise; other rationals are printed as fractions, and NaN as `NaN`. -/
def fRender : F → String
  | .num q => if q.num.natAbs % q.den = 0 then toString (Q.trunc q)
              else toString q.num ++ "/" ++ toString q.den
  | .nan => "NaN"

/-- The `Match(text: …, start: …, end: …)` rendering. -/
def mrRender (m : MatchResult) : String :=
  "Match(text: \"" ++ m.text ++ "\", start: " ++ toString m.start ++
    ", end: " ++ toString m.stop ++ ")"

/-- Comma-joined `MatchResult` renderings. -/
def mrItems : List MatchResult → String
  | [] => ""
  | [m] => mrRender m
  | m :: rest => mrRender m ++ ", " ++ mrItems rest

mutual

/-- The `Interpreter::print_value` (element rendering: strings quoted). -/
def print_value : RuntimeValue → String
  | .number v => toString v
  | .float v => fRender v
  | .string v => "\"" ++ v ++ "\""
  | .regex v => v
  | .boolean v => boolStr v
  | .array v => "[" ++ print_items v ++ "]"
  | .void => "()"
  | .matchValue m => mrRender m
  | .returnValue v => "Return(" ++ print_value v ++ ")"
  | .constValue v => "Const(" ++ print_value v ++ ")"
  | .matchArray arr => "MatchArray[" ++ mrItems arr ++ "]"

/-- The `print_array` element loop (`", "`-separated). -/
def print_items : List RuntimeValue → String
  | [] => ""
  | [v] => print_value v
  | v :: rest => print_value v ++ ", " ++ print_items rest

end

/-- The line printed by `AstNode::Print` for a value (top level: strings
unquoted, arrays via `print_array`, `Void` as `()`, wrappers tagged). -/
def renderTop : RuntimeValue → String
  | .number v => toString v
  | .float v => fRender v
  | .string v => v
  | .regex v => v
  | .boolean v => boolStr v
  | .array v => "[" ++ print_items v ++ "]"
  | .void => "()"
  | .matchValue m => mrRender m
  | .returnValue v => "Return(" ++ print_value v ++ ")"
  | .constValue v => "Const(" ++ print_value v ++ ")"
  | .matchArray arr => "MatchArray[" ++ mrItems arr ++ "]"

/-! ### Binary operators (`eval_binop` and helpers) -/

/-- The `Interpreter::to_str`. -/
def to_str : RuntimeValue → Except String String
  | .number n => .ok (toString n)
  | .float f => .ok (fRender f)
  | .boolean b => .ok (boolStr b)
  | .string s => .ok s
  | _ => .error "Cannot convert to string"

/-- The `Interpreter::num_op`: both operands already converted to f64; every
arithmetic result is `Float`.  `/` checks `r == 0.0`; `%` does not. -/
def num_op (op : String) (l r : F) : Except String RuntimeValue :=
  if op = "+" then .ok (.float (F.add l r))
  else if op = "-" then .ok (.float (F.sub l r))
  else if op = "*" then .ok (.float (F.mul l r))
  else if op = "/" then
    if F.beq r fZero then .error "Division by zero"
    else .ok (.float (F.div l r))
  else if op = "==" then .ok (.boolean (F.beq l r))
  else if op = "!=" then .ok (.boolean (! F.beq l r))
  else if op = "<" then .ok (.boolean (F.flt l r))
  else if op = ">" then .ok (.boolean (F.flt r l))
  else if op = "<=" then .ok (.boolean (F.fle l r))
  else if op = ">=" then .ok (.boolean (F.fle r l))
  else if op = "&&" then
    .ok (.boolean (! F.beq l fZero && ! F.beq r fZero))
  else if op = "||" then
    .ok (.boolean (! F.beq l fZero || ! F.beq r fZero))
  else if op = "%" then .ok (.float (F.fmod l r))
  else .error ("Unknown operator for numbers: " ++ op)

/-- The `Interpreter::bool_op`. -/
def bool_op (op : String) (l r : Bool) : Except String RuntimeValue :=
  if op = "==" then .ok (.boolean (l == r))
  else if op = "!=" then .ok (.boolean (l != r))
  else if op = "&&" then .ok (.boolean (l && r))
  else if op = "||" then .ok (.boolean (l || r))
  else .error ("Unknown operator for booleans: " ++ op)

/-- The `Interpreter::bool_mixed_op`. -/
def bool_mixed_op (op : String) (l r : Bool) : Except String RuntimeValue :=
  bool_op op l r

/-- The `Interpreter::str_op`. -/
def str_op (op : String) (l : String) (right : RuntimeValue) :
    Except String RuntimeValue :=
  if op = "+" then (to_str right).map (fun rs => .string (l ++ rs))
  else if op = "==" then (to_str right).map (fun rs => .boolean (l == rs))
  else if op = "!=" then (to_str right).map (fun rs => .boolean (l != rs))
  else .error ("Unknown operator for strings: " ++ op)

/-- The `Interpreter::str_op_rev`. -/
def str_op_rev (op : String) (left : RuntimeValue) (r : String) :
    Except String RuntimeValue :=
  if op = "+" then (to_str left).map (fun ls => .string (ls ++ r))
  else str_op op r left

/-- The `Interpreter::array_op`. -/
def array_op (op : String) (a b : List RuntimeValue) :
    Except String RuntimeValue :=
  if op = "==" then .ok (.boolean (rvListBeq a b))
  else if op = "!=" then .ok (.boolean (! rvListBeq a b))
  else if op = "+" then .ok (.array (a ++ b))
  else if op = "-" then .ok (.array (a.filter (fun x => ! rvContains b x)))
  else .error ("Unknown operator for arrays: " ++ op)

/-- The `Interpreter::eval_binop`: dispatch on the operand pair, in source
arm order (first match wins). -/
def eval_binop (op : String) (left right : RuntimeValue) :
    Except String RuntimeValue :=
  match left, right with
  | .number l, .number r => num_op op (intToF l) (intToF r)
  | .float l, .float r => num_op op l r
  | .number l, .float r => num_op op (intToF l) r
  | .float l, .number r => num_op op l (intToF r)
  | .boolean l, .boolean r => bool_op op l r
  | .number l, .boolean r => bool_mixed_op op (l != 0) r
  | .boolean l, .number r => bool_mixed_op op l (r != 0)
  | .string l, .array r => str_op op l (.array r)
  | .string l, r => str_op op l r
  | l, .string r => str_op_rev op l r
  | .array a, .array b => array_op op a b
  | _, _ => .error "Type mismatch in binary operation"

/-! ### Conversions, type compatibility, const unwrapping -/

/-- Rust `f as i64`: truncation toward zero; NaN casts to 0 (saturation at
the i64 bounds is abstracted). -/
def fToI64 : F → Int
  | .num q => Q.trunc q
  | .nan => 0

/-- The `AstNode::ToType` cast table (pure part, after the operand is
evaluated), arm for arm.  The debug-formatted text of the final
"unsupported conversion" message is abstracted. -/
def to_type (value : RuntimeValue) (types : Ty) : Except String RuntimeValue :=
  match value, types with
  | .number n, .int => .ok (.number n)
  | .float f, .int => .ok (.number (fToI64 f))
  | .boolean b, .int => .ok (.number (if b then 1 else 0))
  | .string s, .int =>
    match parseI64 s with
    | .ok n => .ok (.number n)
    | .error _ => .error ("Cannot convert string '" ++ s ++ "' to int")
  | .number n, .float => .ok (.float (intToF n))
  | .float f, .float => .ok (.float f)
  | .boolean b, .float => .ok (.float (.num ⟨if b then 1 else 0, 1⟩))
  | .string s, .float =>
    match parseF64 s with
    | .ok f => .ok (.float f)
    | .error _ => .error ("Cannot convert string '" ++ s ++ "' to float")
  | .number n, .bool => .ok (.boolean (n != 0))
  | .float f, .bool => .ok (.boolean (! F.beq f fZero))
  | .boolean b, .bool => .ok (.boolean b)
  | .string s, .bool =>
    .ok (.boolean (! s.isEmpty && s != "false" && s != "0"))
  | .number n, .string => .ok (.string (toString n))
  | .float f, .string => .ok (.string (fRender f))
  | .boolean b, .string => .ok (.string (boolStr b))
  | .string s, .string => .ok (.string s)
  | .array arr, .array => .ok (.array arr)
  | v, .array => .ok (.array [v])
  | _, _ => .error "Cannot convert value to target type"

/-- The `AstNode::TypeFunc` variant-name table. -/
def type_func_str : RuntimeValue → String
  | .number _ => "int"
  | .float _ => "float"
  | .boolean _ => "bool"
  | .string _ => "string"
  | .regex _ => "regex"
  | .array _ => "array"
  | .returnValue _ => "ReturnValue"
  | .matchValue _ => "MatchValue"
  | .void => "void"
  | .constValue _ => "const"
  | .matchArray _ => "MatchArray"

/-- The variant-pair check of `AstNode::Assign` to an identifier
(Number↔Number, …, MatchArray↔MatchArray). -/
def assignCompat : RuntimeValue → RuntimeValue → Bool
  | .number _, .number _ => true
  | .float _, .float _ => true
  | .boolean _, .boolean _ => true
  | .string _, .string _ => true
  | .array _, .array _ => true
  | .regex _, .regex _ => true
  | .matchValue _, .matchValue _ => true
  | .returnValue _, .returnValue _ => true
  | .matchArray _, .matchArray _ => true
  | _, _ => false

/-- The nested `fn is_type_compatible` of the `Let` branch. -/
def is_type_compatible (existing new : RuntimeValue) (target : Option Ty) :
    Bool :=
  match existing with
  | .void => true
  | _ =>
    match target with
    | some t =>
      (match existing, t with
       | .number _, .int => true
       | .float _, .float => true
       | .boolean _, .bool => true
       | .string _, .string => true
       | .regex _, .string => true
       | .array _, .array => true
       | .matchValue _, .array => true
       | .matchArray _, .array => true
       | _, _ => false)
    | none =>
      (match existing, new with
       | .number _, .number _ => true
       | .float _, .float _ => true
       | .boolean _, .boolean _ => true
       | .string _, .string _ => true
       | .regex _, .regex _ => true
       | .array _, .array _ => true
       | .matchValue _, .matchValue _ => true
       | .matchArray _, .matchArray _ => true
       | .void, _ => true
       | _, _ => false)

/-- The `Interpreter::interpret_constant` (always `Ok` in the source). -/
def interpret_constant : RuntimeValue → RuntimeValue
  | .constValue v => v
  | v => v

/-- The identifier arm of the `Assign` branch (after the right-hand side
has been evaluated): const check, Void exception, variant-pair check,
then replacement; evaluates to `Void`. -/
def assignIdent (id : String) (rightVal : RuntimeValue) (st1 : St) :
    IRes RuntimeValue :=
  match alookup st1.vars id with
  | some existingVal =>
    (match existingVal with
     | .constValue _ => some (.err ("Cannot reassign constant " ++ id) st1)
     | .void =>
       some (.ok .void { st1 with vars := ainsert id rightVal st1.vars })
     | _ =>
       if assignCompat existingVal rightVal then
         some (.ok .void { st1 with vars := ainsert id rightVal st1.vars })
       else some (.err ("Type mismatch for variable " ++ id) st1))
  | none => some (.ok .void { st1 with vars := ainsert id rightVal st1.vars })

/-- The index arm of the `Assign` branch after the right-hand side, the
array expression and the index have been evaluated: bounds check, const
check on a bare-identifier receiver, element overwrite, binding
reinsertion; evaluates to the entire updated array. -/
def assignIndexFin (arrayE : AstNode) (rightVal arrayVal idxVal :
    RuntimeValue) (st3 : St) : IRes RuntimeValue :=
  match arrayVal, idxVal with
  | .array arr, .number idx =>
    if idx < 0 ∨ (arr.length : Int) ≤ idx then
      some (.err ("Index " ++ toString idx ++
        " out of bounds for array of length " ++ toString arr.length) st3)
    else
      (match arrayE with
       | .identifier id =>
         (match alookup st3.vars id with
          | some (.constValue _) =>
            some (.err ("Cannot modify constant array " ++ id) st3)
          | _ =>
            let newArr := arr.set idx.toNat rightVal
            some (.ok (.array newArr)
              { st3 with vars := ainsert id (.array newArr) st3.vars }))
       | _ =>
         let newArr := arr.set idx.toNat rightVal
         some (.ok (.array newArr) st3))
  | _, _ =>
    some (.err
      "Index assignment only supported for arrays with numeric indices" st3)

/-- The tail of the `Let` branch after the redeclaration checks: the
declared-type check against a `Void` existing value, then insertion
(wrapping in `ConstValue` when the binding is const). -/
def letFinish (name : String) (is_const : Bool) (var_type : Option Ty)
    (value : RuntimeValue) (st : St) : IRes RuntimeValue :=
  let stored : RuntimeValue := if is_const then .constValue value else value
  match var_type with
  | some t =>
    if ¬ is_type_compatible .void value (some t) then
      some (.err ("Value does not match declared type for variable " ++ name)
        st)
    else
      some (.ok .void { st with vars := ainsert name stored st.vars })
  | none =>
    some (.ok .void { st with vars := ainsert name stored st.vars })

/-! ### The tree-walking interpreter (`src/core/interpreter.rs`)

The mutual recursion (statement lists, node dispatch, and the `while` /
`for` / `for-in` loops, which can genuinely diverge) is made total with a
fuel argument decremented on entry to every function of the block;
`none` is fuel exhaustion or an unmodelled external effect. -/

mutual

/-- The `Interpreter::interpret`: evaluate the nodes in order, stopping early
when a statement yields a `ReturnValue`; the result is the last evaluated
value (`Void` for an empty list). -/
def interpret : Nat → St → List AstNode → IRes RuntimeValue
  | 0, _, _ => none
  | _ + 1, st, [] => some (.ok .void st)
  | fuel + 1, st, n :: rest =>
    ibind (interpretSingle fuel st n) fun v st1 =>
      match v with
      | .returnValue v1 => some (.ok (.returnValue v1) st1)
      | _ =>
        match rest with
        | [] => some (.ok v st1)
        | _ :: _ => interpret fuel st1 rest

/-- The element/argument evaluation loop (`.map(interpret_single)
.collect::<Result<…>>()`): left-to-right, stopping at the first error. -/
def evalList : Nat → St → List AstNode → IRes (List RuntimeValue)
  | 0, _, _ => none
  | _ + 1, st, [] => some (.ok [] st)
  | fuel + 1, st, e :: rest =>
    ibind (interpretSingle fuel st e) fun v st1 =>
      ibind (evalList fuel st1 rest) fun vs st2 => some (.ok (v :: vs) st2)

/-- The `While` loop: iterate exactly while the condition evaluates to
`Boolean(true)`; the body's block result is discarded (only errors
propagate), and the node evaluates to `Void`. -/
def whileLoop : Nat → St → AstNode → List AstNode → IRes RuntimeValue
  | 0, _, _, _ => none
  | fuel + 1, st, condition, body =>
    ibind (interpretSingle fuel st condition) fun cv st1 =>
      if rvBeq cv (.boolean true) then
        ibind (interpret fuel st1 body) fun _ st2 =>
          whileLoop fuel st2 condition body
      else some (.ok .void st1)

/-- The `For` loop after `init`: condition, body (result discarded),
increment. -/
def forLoop : Nat → St → AstNode → AstNode → List AstNode →
    IRes RuntimeValue
  | 0, _, _, _, _ => none
  | fuel + 1, st, condition, increment, body =>
    ibind (interpretSingle fuel st condition) fun cv st1 =>
      if rvBeq cv (.boolean true) then
        ibind (interpret fuel st1 body) fun _ st2 =>
          ibind (interpretSingle fuel st2 increment) fun _ st3 =>
            forLoop fuel st3 condition increment body
      else some (.ok .void st1)

/-- The `ForIn` iteration over an already-computed value list: bind the
variable, run the body (block result discarded), continue; `Void` at the
end. -/
def forInLoop : Nat → St → String → List AstNode → List RuntimeValue →
    IRes RuntimeValue
  | 0, _, _, _, _ => none
  | _ + 1, st, _, _, [] => some (.ok .void st)
  | fuel + 1, st, var, body, v :: rest =>
    let st1 : St := { st with vars := ainsert var v st.vars }
    ibind (interpret fuel st1 body) fun _ st2 =>
      forInLoop fuel st2 var body rest

/-- The `Interpreter::interpret_single`: the per-node dispatch. -/
def interpretSingle : Nat → St → AstNode → IRes RuntimeValue
  | 0, _, _ => none
  | fuel + 1, st, node =>
    match node with
    | .number n => some (.ok (.number n) st)
    | .float f => some (.ok (.float f) st)
    | .string s => some (.ok (.string s) st)
    | .regex r => some (.ok (.regex r) st)
    | .boolean b => some (.ok (.boolean b) st)
    | .array elements =>
      ibind (evalList fuel st elements) fun vs st1 =>
        some (.ok (.array vs) st1)
    | .index arrayE idxE =>
      ibind (interpretSingle fuel st arrayE) fun arrayVal st1 =>
        ibind (interpretSingle fuel st1 idxE) fun idxVal st2 =>
          match arrayVal, idxVal with
          | .array arr, .number idx =>
            if idx < 0 ∨ (arr.length : Int) ≤ idx then
              some (.err ("Index " ++ toString idx ++
                " out of bounds for array of length " ++
                toString arr.length) st2)
            else
              -- in bounds by the guard
              some (.ok (arr.getD idx.toNat .void) st2)
          | _, _ =>
            some (.err
              "Indexing only supported for arrays with numeric indices" st2)
    | .methodCall objectE method args =>
      ibind (interpretSingle fuel st objectE) fun objVal st1 =>
        ibind (evalList fuel st1 args) fun argVals st2 =>
          match objVal with
          | .array arr =>
            if method = "push" then
              if argVals.length ≠ 1 then
                some (.err "Array.add() expects exactly 1 argument" st2)
              else
                let newArr := arr ++ [argVals.getD 0 .void]
                match objectE with
                | .identifier id =>
                  some (.ok (.array newArr)
                    { st2 with vars := ainsert id (.array newArr) st2.vars })
                | _ => some (.ok (.array newArr) st2)
            else
              some (.err ("Method " ++ method ++
                " not supported for this type") st2)
          | .string s =>
            if method = "chars" then
              if ! argVals.isEmpty then
                some (.err "String.chars() expects no arguments" st2)
              else
                some (.ok (.array (s.toList.map
                  (fun c => .string (String.mk [c])))) st2)
            else
              some (.err ("Method " ++ method ++
                " not supported for this type") st2)
          | _ =>
            some (.err ("Method " ++ method ++
              " not supported for this type") st2)
    | .assign leftE rightE =>
      ibind (interpretSingle fuel st rightE) fun rightVal st1 =>
        match leftE with
        | .identifier id => assignIdent id rightVal st1
        | .index arrayE idxE =>
          ibind (interpretSingle fuel st1 arrayE) fun arrayVal st2 =>
            ibind (interpretSingle fuel st2 idxE) fun idxVal st3 =>
              assignIndexFin arrayE rightVal arrayVal idxVal st3
        | _ => some (.err "Assignment to non-identifier or non-index" st1)
    | .toType types e =>
      ibind (interpretSingle fuel st e) fun v st1 =>
        match to_type v types with
        | .ok r => some (.ok r st1)
        | .error m => some (.err m st1)
    | .identifier id =>
      (match alookup st.vars id with
       | some v => some (.ok v st)
       | none => some (.err ("Undefined variable: " ++ id) st))
    | .delete e =>
      ibind (interpretSingle fuel st e) fun v st1 =>
        match e with
        | .identifier id =>
          some (.ok .void { st1 with vars := aerase id st1.vars })
        | _ => some (.ok v st1)
    | .ret e =>
      ibind (interpretSingle fuel st e) fun v st1 =>
        some (.ok (.returnValue v) st1)
    | .function name params body =>
      some (.ok .void
        { st with functions :=
            ainsert name (params.map (fun p => p.name), body) st.functions })
    | .functionCall name args =>
      (match alookup st.functions name with
       | none => some (.err ("Undefined function: " ++ name) st)
       | some pb =>
         if args.length ≠ pb.1.length then
           some (.err ("Function " ++ name ++ " expects " ++
             toString pb.1.length ++ " arguments, got " ++
             toString args.length) st)
         else
           ibind (evalList fuel st args) fun argVals st1 =>
             let callSt : St :=
               { vars := (pb.1.zip argVals).foldl
                   (fun m pa => ainsert pa.1 pa.2 m) [],
                 functions := st1.functions,
                 output := st1.output }
             match interpret fuel callSt pb.2 with
             | none => none
             | some (.err e st2) =>
               some (.err e { st1 with output := st2.output })
             | some (.ok v st2) =>
               let res := match v with
                 | .returnValue inner => inner
                 | other => other
               some (.ok res { st1 with output := st2.output }))
    | .print left =>
      ibind (interpretSingle fuel st left) fun v st1 =>
        some (.ok .void { st1 with output := st1.output ++ [renderTop v] })
    | .letStmt name is_const var_type var_value =>
      ibind (interpretSingle fuel st var_value) fun value st1 =>
        (match alookup st1.vars name with
         | some existing =>
           (match existing with
            | .constValue _ =>
              some (.err ("Cannot reassign constant " ++ name) st1)
            | _ =>
              if ¬ is_type_compatible existing value var_type then
                some (.err ("Type mismatch for variable " ++ name) st1)
              else letFinish name is_const var_type value st1)
         | none => letFinish name is_const var_type value st1)
    | .imp _ => none       -- filesystem read + nested lex/parse: unmodelled
    | .input _ => none     -- stdin: unmodelled
    | .random l r =>
      ibind (interpretSingle fuel st l) fun lv st1 =>
        ibind (interpretSingle fuel st1 r) fun rv st2 =>
          match lv, rv with
          | .number _, .number _ => none   -- RNG: unmodelled
          | _, _ => some (.err "Random range requires numbers" st2)
    | .ifStmt condition body else_body =>
      ibind (interpretSingle fuel st condition) fun cv st1 =>
        match cv with
        | .boolean true => interpret fuel st1 body
        | .boolean false =>
          (match else_body with
           | some b => interpret fuel st1 b
           | none => some (.ok .void st1))
        | .number n =>
          if 0 < n then interpret fuel st1 body
          else
            (match else_body with
             | some b => interpret fuel st1 b
             | none => some (.ok .void st1))
        | _ => some (.err "Condition must be boolean" st1)
    | .whileStmt condition body => whileLoop fuel st condition body
    | .forStmt init condition increment body =>
      ibind (interpretSingle fuel st init) fun _ st1 =>
        forLoop fuel st1 condition increment body
    | .forIn var iterable body =>
      ibind (interpretSingle fuel st iterable) fun itRes st1 =>
        match interpret_constant itRes with
        | .array items => forInLoop fuel st1 var body items
        | .number num =>
          forInLoop fuel st1 var body
            ((List.range num.toNat).map
              (fun (k : Nat) => .number (1 + (k : Int))))
        | .string s =>
          forInLoop fuel st1 var body
            (s.toList.map (fun c => .string (String.mk [c])))
        | _ => some (.err "for..in can only iterate over arrays" st1)
    | .binaryOp op l r =>
      ibind (interpretSingle fuel st l) fun lv st1 =>
        ibind (interpretSingle fuel st1 r) fun rv st2 =>
          match eval_binop op lv rv with
          | .ok v => some (.ok v st2)
          | .error e => some (.err e st2)
    | .unaryOpTT op varE =>
      (match varE with
       | .identifier id =>
         (match alookup st.vars id with
          | none => some (.err ("Undefined variable: " ++ id) st)
          | some current =>
            (match current with
             | .number n =>
               if op = "++" then
                 some (.ok (.number (n + 1))
                   { st with vars := ainsert id (.number (n + 1)) st.vars })
               else if op = "--" then
                 some (.ok (.number (n - 1))
                   { st with vars := ainsert id (.number (n - 1)) st.vars })
               else
                 some (.err ("Invalid operation " ++ op ++ " for type") st)
             | _ =>
               some (.err ("Invalid operation " ++ op ++ " for type") st)))
       | _ => some (.err "++/-- can only be applied to variables" st))
    | .typeFunc e =>
      ibind (interpretSingle fuel st e) fun v st1 =>
        some (.ok (.string (type_func_str v)) st1)
    | .sleepStmt e =>
      ibind (interpretSingle fuel st e) fun v st1 =>
        match v with
        | .number _ => some (.ok .void st1)   -- suspension abstracted
        | .float _ => some (.ok .void st1)
        | _ =>
          some (.err "Sleep function expects a number (milliseconds)" st1)
    | .void => some (.ok .void st)
    | .compile e rgx =>
      ibind (interpretSingle fuel st e) fun v st1 =>
        ibind (interpretSingle fuel st1 rgx) fun rv st2 =>
          match v with
          | .string _ =>
            (match rv with
             | .regex _ => none   -- regex engine: unmodelled
             | _ => some (.err "Expected string for regex pattern" st2))
          | _ => some (.err "Expected string for compile expression" st2)
    | .compileAll e rgx =>
      ibind (interpretSingle fuel st e) fun v st1 =>
        ibind (interpretSingle fuel st1 rgx) fun rv st2 =>
          match v with
          | .string _ =>
            (match rv with
             | .regex _ => none   -- regex engine: unmodelled
             | _ => some (.err "Expected string for regex pattern" st2))
          | _ => some (.err "Expected string for CompileAll expression" st2)

end

/-- The `Interpreter::new()` followed by `interpret(&ast)`: the empty initial
state. -/
def st0 : St := { vars := [], functions := [], output := [] }

/-- Run a program from the fresh interpreter state. -/
def interpretProgram (fuel : Nat) (nodes : List AstNode) :
    IRes RuntimeValue :=
  interpret fuel st0 nodes

/-! ## Theorems

First the supporting lemmas about the embedding, then one theorem per
claim. -/

/-! ### Positivity of rule matches (every rule consumes at least one
character), which makes the lexer loop terminate. -/

theorem firstAlt_pos {pats : List String}
    (hp : ∀ p ∈ pats, 1 ≤ p.length) {cs : List Char} {n : Nat}
    (h : firstAlt pats cs = some n) : 1 ≤ n := by
  induction pats with
  | nil => simp [firstAlt] at h
  | cons p ps ih =>
    rw [firstAlt] at h
    split at h
    · injection h with h'
      subst h'
      exact hp p (by simp)
    · exact ih (fun q hq => hp q (by simp [hq])) h

theorem matchWs_pos {cs : List Char} {n : Nat} (h : matchWs cs = some n) :
    1 ≤ n := by
  simp only [matchWs] at h
  split at h
  · cases h
  · next hz => injection h with h'; omega

theorem matchNl_pos {cs : List Char} {n : Nat} (h : matchNl cs = some n) :
    1 ≤ n := by
  simp only [matchNl] at h
  split at h
  · cases h
  · next hz => injection h with h'; omega

theorem matchNum_pos {cs : List Char} {n : Nat} (h : matchNum cs = some n) :
    1 ≤ n := by
  simp only [matchNum] at h
  split at h
  · cases h
  · next hz => injection h with h'; omega

theorem matchComment_pos {cs : List Char} {n : Nat}
    (h : matchComment cs = some n) : 1 ≤ n := by
  unfold matchComment at h
  split at h
  · injection h with h'; omega
  · cases h

theorem matchChar_pos {c : Char} {cs : List Char} {n : Nat}
    (h : matchChar c cs = some n) : 1 ≤ n := by
  unfold matchChar at h
  split at h
  · split at h
    · injection h with h'; omega
    · cases h
  · cases h

theorem matchFloat_pos {cs : List Char} {n : Nat}
    (h : matchFloat cs = some n) : 1 ≤ n := by
  simp only [matchFloat] at h
  split at h
  · cases h
  · split at h
    · split at h
      · cases h
      · injection h with h'; omega
    · cases h

theorem matchStr_pos {cs : List Char} {n : Nat} (h : matchStr cs = some n) :
    1 ≤ n := by
  unfold matchStr at h
  split at h
  · obtain ⟨m, _, hm⟩ := Option.map_eq_some'.mp h
    omega
  · cases h

theorem matchRegexRule_pos {cs : List Char} {n : Nat}
    (h : matchRegexRule cs = some n) : 1 ≤ n := by
  unfold matchRegexRule at h
  split at h
  · obtain ⟨m, _, hm⟩ := Option.map_eq_some'.mp h
    omega
  · cases h

theorem matchId_pos {cs : List Char} {n : Nat} (h : matchId cs = some n) :
    1 ≤ n := by
  unfold matchId at h
  split at h
  · split at h
    · injection h with h'; omega
    · cases h
  · cases h

theorem matchArrow_pos {cs : List Char} {n : Nat}
    (h : matchArrow cs = some n) : 1 ≤ n :=
  firstAlt_pos (by decide) h

theorem matchOpMain_pos {cs : List Char} {n : Nat}
    (h : matchOpMain cs = some n) : 1 ≤ n :=
  firstAlt_pos (by decide) h

theorem matchOpSub_pos {cs : List Char} {n : Nat}
    (h : matchOpSub cs = some n) : 1 ≤ n :=
  firstAlt_pos (by decide) h

theorem matchAssign_pos {cs : List Char} {n : Nat}
    (h : matchAssign cs = some n) : 1 ≤ n :=
  firstAlt_pos (by decide) h

theorem matchTypes_pos {cs : List Char} {n : Nat}
    (h : matchTypes cs = some n) : 1 ≤ n :=
  firstAlt_pos (by decide) h

theorem matchBool_pos {cs : List Char} {n : Nat}
    (h : matchBool cs = some n) : 1 ≤ n :=
  firstAlt_pos (by decide) h

/-- Every rule of either table consumes at least one character. -/
theorem firstRule_pos {rules : List (String × (List Char → Option Nat))}
    (hr : ∀ r ∈ rules, ∀ cs n, r.2 cs = some n → 1 ≤ n)
    {cs : List Char} {name : String} {len : Nat}
    (h : firstRule rules cs = some (name, len)) : 1 ≤ len := by
  induction rules with
  | nil => simp [firstRule] at h
  | cons r rs ih =>
    rw [firstRule] at h
    split at h
    · next m hm =>
      injection h with h'
      cases h'
      exact hr r (by simp) cs len hm
    · exact ih (fun q hq => hr q (by simp [hq])) h

theorem rulesMain_pos :
    ∀ r ∈ rulesMain, ∀ cs n, r.2 cs = some n → 1 ≤ n := by
  intro r hr
  simp only [rulesMain, List.mem_cons, List.not_mem_nil, or_false] at hr
  rcases hr with h|h|h|h|h|h|h|h|h|h|h|h|h|h|h|h|h|h|h|h|h|h <;> subst h <;>
    intro cs n h
  · exact matchWs_pos h
  · exact matchNl_pos h
  · exact matchComment_pos h
  · exact matchArrow_pos h
  · exact matchOpMain_pos h
  · exact matchAssign_pos h
  · exact matchChar_pos h
  · exact matchChar_pos h
  · exact matchChar_pos h
  · exact matchChar_pos h
  · exact matchChar_pos h
  · exact matchChar_pos h
  · exact matchChar_pos h
  · exact matchChar_pos h
  · exact matchChar_pos h
  · exact matchTypes_pos h
  · exact matchFloat_pos h
  · exact matchNum_pos h
  · exact matchStr_pos h
  · exact matchRegexRule_pos h
  · exact matchBool_pos h
  · exact matchId_pos h

theorem rulesSub_pos :
    ∀ r ∈ rulesSub, ∀ cs n, r.2 cs = some n → 1 ≤ n := by
  intro r hr
  simp only [rulesSub, List.mem_cons, List.not_mem_nil, or_false] at hr
  rcases hr with h|h|h|h|h|h|h|h|h|h|h|h|h|h|h|h|h|h|h|h|h|h <;> subst h <;>
    intro cs n h
  · exact matchWs_pos h
  · exact matchNl_pos h
  · exact matchComment_pos h
  · exact matchArrow_pos h
  · exact matchOpSub_pos h
  · exact matchAssign_pos h
  · exact matchChar_pos h
  · exact matchChar_pos h
  · exact matchChar_pos h
  · exact matchChar_pos h
  · exact matchChar_pos h
  · exact matchChar_pos h
  · exact matchChar_pos h
  · exact matchChar_pos h
  · exact matchChar_pos h
  · exact matchTypes_pos h
  · exact matchFloat_pos h
  · exact matchNum_pos h
  · exact matchStr_pos h
  · exact matchRegexRule_pos h
  · exact matchBool_pos h
  · exact matchId_pos h

/-- Any fuel of at least the input length gives the same result: the
fuel-exhaustion arm of `lexLoopSub` is unreachable from the entry point. -/
theorem lexLoopSub_fuel : ∀ (n : Nat) (cs : List Char) (f1 f2 : Nat),
    cs.length ≤ n → cs.length ≤ f1 → cs.length ≤ f2 →
    lexLoopSub f1 cs = lexLoopSub f2 cs := by
  intro n
  induction n with
  | zero =>
    intro cs f1 f2 hn _ _
    have : cs = [] := List.eq_nil_of_length_eq_zero (Nat.le_zero.mp hn)
    subst this
    cases f1 <;> cases f2 <;> rfl
  | succ n ih =>
    intro cs f1 f2 hn h1 h2
    match cs with
    | [] => cases f1 <;> cases f2 <;> rfl
    | c :: rest =>
      simp at hn h1 h2
      match f1, f2 with
      | f1 + 1, f2 + 1 =>
        rw [lexLoopSub, lexLoopSub]
        cases hfr : firstRule rulesSub (c :: rest) with
        | none =>
          have := ih rest f1 f2 (by omega) (by omega) (by omega)
          simp [this]
        | some nl =>
          obtain ⟨nm, ln⟩ := nl
          have hpos := firstRule_pos rulesSub_pos hfr
          have hlen : ((c :: rest).drop ln).length ≤ n := by
            simp
            omega
          have := ih ((c :: rest).drop ln) f1 f2 hlen
            (by simp; omega) (by simp; omega)
          simp [this]

/-! ### C4 — Number arithmetic always produces Float -/

/-- C4 counterexample: the claim says `Number(2) + Number(3)` evaluates to
a Number with exact integer arithmetic; in fact `eval_binop` converts both
operands to f64 and `num_op` returns `Float(5.0)`. -/
theorem C4_counterexample :
    eval_binop "+" (.number 2) (.number 3) = .ok (.float (.num ⟨5, 1⟩)) := rfl

/-- C4 (amended): for all Number operands, `+`, `-`, `*` produce the exact
`Float` of the result (never a Number), and `/` with a nonzero divisor
also produces a `Float`; promotion to Float happens for all numeric
arithmetic, not only mixed Number–Float operands. -/
theorem C4_amended_thm (l r : Int) :
    eval_binop "+" (.number l) (.number r) = .ok (.float (.num ⟨l + r, 1⟩)) ∧
    eval_binop "-" (.number l) (.number r) = .ok (.float (.num ⟨l - r, 1⟩)) ∧
    eval_binop "*" (.number l) (.number r) = .ok (.float (.num ⟨l * r, 1⟩)) ∧
    (r ≠ 0 →
      ∃ f, eval_binop "/" (.number l) (.number r) = .ok (.float f)) := by
  refine ⟨?_, ?_, ?_, ?_⟩
  · simp [eval_binop, num_op, intToF, F.add, Q.add, Q.ofInt]
  · simp [eval_binop, num_op, intToF, F.sub, Q.sub, Q.ofInt]
  · simp [eval_binop, num_op, intToF, F.mul, Q.mul, Q.ofInt]
  · intro hr
    refine ⟨F.div (intToF l) (intToF r), ?_⟩
    simp [eval_binop, num_op, intToF, F.beq, Q.beq, Q.ofInt, fZero, hr]

/-- C4 witness: the division clause of `C4_amended_thm` at `7 / 2`. -/
theorem C4_witness :
    ((2 : Int) ≠ 0) ∧
    (∃ f, eval_binop "/" (.number 7) (.number 2) = .ok (.float f)) :=
  ⟨by decide, (C4_amended_thm 7 2).2.2.2 (by decide)⟩

/-! ### C5 — division by zero errors, modulo by zero does not -/

/-- C5 counterexample: `5 % 0` does not fail with `Modulo by zero` — it
evaluates to `Float(NaN)` (`num_op` has no zero check for `%`); and `%`
is not an OP lexeme of the lexer `main.rs` uses (`src/core/lexer.rs`),
whose lexing of `"%"` panics. -/
theorem C5_counterexample :
    eval_binop "%" (.number 5) (.number 0) = .ok (.float .nan) ∧
    MainLexer.lex "%" = none :=
  ⟨rfl, rfl⟩

/-- C5 (amended): for every numeric left operand, `l / 0` fails with
`Division by zero` (whether either side is Number or Float, NaN
included), but `l % 0` succeeds with `Float(NaN)`; `%` is an OP lexeme of
`src/core/lexer/lexer.rs` but not of `src/core/lexer.rs`. -/
theorem C5_amended_thm (l : Int) (f : F) :
    eval_binop "/" (.number l) (.number 0) = .error "Division by zero" ∧
    eval_binop "/" (.float f) (.number 0) = .error "Division by zero" ∧
    eval_binop "/" (.number l) (.float fZero) = .error "Division by zero" ∧
    eval_binop "%" (.number l) (.number 0) = .ok (.float .nan) ∧
    SubLexer.lex "%" = .ok [("OP", "%")] ∧
    MainLexer.lex "%" = none := by
  refine ⟨?_, ?_, rfl, rfl, rfl, rfl⟩
  · rfl
  · cases f <;> rfl

/-! ### C6 — precedence: comparison band binds tighter than `*`/`/`,
which bind tighter than `+`/`-`/`=` -/

/-- C6: for all identifiers `a`, `b`, `c`: `a + b == c` parses as
`BinaryOp("+", a, BinaryOp("==", b, c))` and `a * b < c` parses as
`BinaryOp("*", a, BinaryOp("<", b, c))` (the comparison/logical band
binds tightest); the additive band is left-associative
(`a - b - c` = `(a - b) - c`) and assignment is right-associative
(`a = b = c` = `a = (b = c)`). -/
theorem C6_thm (a b c : String) :
    parseProgram 32 [("ID", a), ("OP", "+"), ("ID", b), ("OP", "=="),
      ("ID", c)] =
      some (.ok [.binaryOp "+" (.identifier a)
        (.binaryOp "==" (.identifier b) (.identifier c))]) ∧
    parseProgram 32 [("ID", a), ("OP", "*"), ("ID", b), ("OP", "<"),
      ("ID", c)] =
      some (.ok [.binaryOp "*" (.identifier a)
        (.binaryOp "<" (.identifier b) (.identifier c))]) ∧
    parseProgram 32 [("ID", a), ("OP", "-"), ("ID", b), ("OP", "-"),
      ("ID", c)] =
      some (.ok [.binaryOp "-"
        (.binaryOp "-" (.identifier a) (.identifier b)) (.identifier c)]) ∧
    parseProgram 32 [("ID", a), ("ASSIGN", "="), ("ID", b), ("ASSIGN", "="),
      ("ID", c)] =
      some (.ok [.assign (.identifier a)
        (.assign (.identifier b) (.identifier c))]) :=
  ⟨rfl, rfl, rfl, rfl⟩

/-! ### C2 — lexing is total, with per-character diagnostics -/

/-- C2: the diagnostics-collecting lexer (`src/core/lexer/lexer.rs`) is
total: every input yields either a token list or a non-empty list of
`UnexpectedCharacter` diagnostics; and whenever no rule matches at the
current position, the loop records exactly one diagnostic for the first
character (storing its byte length) and continues with the rest of the
input. -/
theorem C2_thm :
    (∀ code : String,
      (∃ ts, SubLexer.lex code = .ok ts) ∨
      (∃ es, SubLexer.lex code = .error es ∧ es ≠ [])) ∧
    (∀ (c : Char) (cs : List Char),
      firstRule rulesSub (c :: cs) = none →
      lexLoopSub (cs.length + 1) (c :: cs) =
        ((lexLoopSub cs.length cs).1,
          { char := c, pos := c.utf8Size } :: (lexLoopSub cs.length cs).2)) := by
  constructor
  · intro code
    unfold SubLexer.lex
    split
    · next h2 => exact Or.inr ⟨_, rfl, h2⟩
    · next h2 => exact Or.inl ⟨_, rfl⟩
  · intro c cs h
    rw [lexLoopSub, h]

/-- C2 witness: no rule matches `'@'`, so lexing `"@let"` yields the
tokens of `"let"` plus one `UnexpectedCharacter` diagnostic for `'@'`. -/
theorem C2_witness :
    firstRule rulesSub ('@' :: "let".toList) = none ∧
    lexLoopSub 4 ('@' :: "let".toList) =
      ([("KEYWORD", "let")], [{ char := '@', pos := 1 }]) :=
  ⟨rfl, C2_thm.2 '@' "let".toList rfl⟩

/-! ### C1 — the print keyword is `printf`, not `print` -/

/-- C1 counterexample: in the lexer used by `main.rs` the keyword list
contains `printf`, not `print`, so `print` lexes as an ID token (not
KEYWORD) and `print(1)` parses as a `FunctionCall` (not a `Print` node),
which then fails at run time with `Undefined function: print`. -/
theorem C1_counterexample :
    MainLexer.lex "print(1)" =
      some [("ID", "print"), ("LPAREN", "("), ("NUM", "1"), ("RPAREN", ")")] ∧
    parseProgram 32
      [("ID", "print"), ("LPAREN", "("), ("NUM", "1"), ("RPAREN", ")")] =
      some (.ok [.functionCall "print" [.number 1]]) ∧
    interpretProgram 10 [.functionCall "print" [.number 1]] =
      some (.err "Undefined function: print" st0) :=
  ⟨rfl, rfl, rfl⟩

/-- C1 (amended): the keyword is `printf`: `printf(e)` lexes `printf` as
a KEYWORD token, parses to a `Print` node whose left child is the AST of
`e`, and interpreting a `Print` node renders the evaluated value of its
child to stdout and evaluates to `Void` (shown end-to-end for
`printf(2+3)`, which prints `5`, and in general for every child
expression that evaluates successfully). -/
theorem C1_thm :
    MainLexer.lex "printf(2+3)" =
      some [("KEYWORD", "printf"), ("LPAREN", "("), ("NUM", "2"),
        ("OP", "+"), ("NUM", "3"), ("RPAREN", ")")] ∧
    parseProgram 32
      [("KEYWORD", "printf"), ("LPAREN", "("), ("NUM", "2"), ("OP", "+"),
        ("NUM", "3"), ("RPAREN", ")")] =
      some (.ok [.print (.binaryOp "+" (.number 2) (.number 3))]) ∧
    interpretProgram 10 [.print (.binaryOp "+" (.number 2) (.number 3))] =
      some (.ok .void ⟨[], [], ["5"]⟩) ∧
    (∀ (fuel : Nat) (st : St) (e : AstNode) (v : RuntimeValue) (st1 : St),
      interpretSingle fuel st e = some (.ok v st1) →
      interpretSingle (fuel + 1) st (.print e) =
        some (.ok .void { st1 with output := st1.output ++ [renderTop v] })) := by
  refine ⟨rfl, rfl, rfl, ?_⟩
  intro fuel st e v st1 h
  simp [interpretSingle, ibind, h]

/-- C1 witness: the general `Print` clause of `C1_thm` at `2 + 3` in the
fresh state. -/
theorem C1_witness :
    interpretSingle 5 st0 (.binaryOp "+" (.number 2) (.number 3)) =
      some (.ok (.float (.num ⟨5, 1⟩)) st0) ∧
    interpretSingle 6 st0 (.print (.binaryOp "+" (.number 2) (.number 3))) =
      some (.ok .void ⟨[], [], ["5"]⟩) :=
  ⟨rfl, C1_thm.2.2.2 5 st0 (.binaryOp "+" (.number 2) (.number 3))
    (.float (.num ⟨5, 1⟩)) st0 rfl⟩

/-! ### C7 — `Let` and redeclaration -/

/-- C7 counterexample: in an environment where `x` is bound to
`Number(1)`, the declaration `let x: int = 2` does not fail with a
redeclaration error — it succeeds (evaluating to `Void`) and replaces the
binding. -/
theorem C7_counterexample :
    interpretSingle 5 ⟨[("x", .number 1)], [], []⟩
      (.letStmt "x" false (some .int) (.number 2)) =
      some (.ok .void ⟨[("x", .number 2)], [], []⟩) := rfl

/-- C7 (amended): a `Let` for an already-bound name fails only when the
existing binding is a `ConstValue` (`Cannot reassign constant …`) or when
it is type-incompatible with the declaration (`Type mismatch for
variable …`); a compatible redeclaration succeeds and replaces the
binding.  In the failing cases (with a literal initializer) the
environment is left unchanged. -/
theorem C7_thm :
    (∀ (fuel : Nat) (st : St) (name : String) (v : RuntimeValue) (b : Bool)
      (ty : Option Ty) (k : Int),
      alookup st.vars name = some (.constValue v) →
      interpretSingle (fuel + 2) st (.letStmt name b ty (.number k)) =
        some (.err ("Cannot reassign constant " ++ name) st)) ∧
    (∀ (fuel : Nat) (st : St) (name : String) (s : String) (k : Int),
      alookup st.vars name = some (.string s) →
      interpretSingle (fuel + 2) st
        (.letStmt name false (some .int) (.number k)) =
        some (.err ("Type mismatch for variable " ++ name) st)) := by
  constructor
  · intro fuel st name v b ty k h
    simp [interpretSingle, ibind, h]
  · intro fuel st name s k h
    simp [interpretSingle, ibind, h, is_type_compatible]

/-- C7 witness: both failing clauses of `C7_thm` at concrete bindings. -/
theorem C7_witness :
    alookup ([("c", RuntimeValue.constValue (.number 7))]) "c" =
      some (.constValue (.number 7)) ∧
    interpretSingle 3 ⟨[("c", .constValue (.number 7))], [], []⟩
      (.letStmt "c" false (some .int) (.number 8)) =
      some (.err "Cannot reassign constant c"
        ⟨[("c", .constValue (.number 7))], [], []⟩) ∧
    alookup ([("y", RuntimeValue.string "hi")]) "y" =
      some (.string "hi") ∧
    interpretSingle 3 ⟨[("y", .string "hi")], [], []⟩
      (.letStmt "y" false (some .int) (.number 3)) =
      some (.err "Type mismatch for variable y"
        ⟨[("y", .string "hi")], [], []⟩) :=
  ⟨rfl,
   C7_thm.1 1 ⟨[("c", .constValue (.number 7))], [], []⟩ "c" (.number 7)
     false (some .int) 8 rfl,
   rfl,
   C7_thm.2 1 ⟨[("y", .string "hi")], [], []⟩ "y" "hi" 3 rfl⟩

/-! ### C8 — const immutability -/

/-- C8 counterexample: with `x` bound to `ConstValue(Number(7))`, the
assignment `x = del(x)` does not error — the right-hand side deletes the
binding first, so the assignment succeeds and leaves `x` bound to `Void`
(not to `ConstValue(Number(7))`). -/
theorem C8_counterexample :
    interpretSingle 10 ⟨[("x", .constValue (.number 7))], [], []⟩
      (.assign (.identifier "x") (.delete (.identifier "x"))) =
      some (.ok .void ⟨[("x", .void)], [], []⟩) := rfl

/-- C8 (amended): if a name is bound to `ConstValue(v)` after the
assignment's right-hand side has been evaluated, assigning to the name
fails with `Cannot reassign constant …` and leaves that state unchanged;
postfix `++`/`--` on a const-bound name fails with `Invalid operation …
for type` and leaves the state unchanged; and an indexed assignment
through a const-bound name fails (the `ConstValue` wrapper is not an
`Array`, so the generic index-assignment error is produced) leaving the
state unchanged.  A right-hand side that unbinds the name first (such as
`del(x)`) escapes the const check. -/
theorem C8_thm :
    (∀ (fuel : Nat) (st : St) (name : String) (v : RuntimeValue)
      (rhs : AstNode) (v1 : RuntimeValue) (st1 : St),
      interpretSingle fuel st rhs = some (.ok v1 st1) →
      alookup st1.vars name = some (.constValue v) →
      interpretSingle (fuel + 1) st (.assign (.identifier name) rhs) =
        some (.err ("Cannot reassign constant " ++ name) st1)) ∧
    (∀ (fuel : Nat) (st : St) (name : String) (v : RuntimeValue),
      alookup st.vars name = some (.constValue v) →
      interpretSingle (fuel + 1) st (.unaryOpTT "++" (.identifier name)) =
        some (.err "Invalid operation ++ for type" st) ∧
      interpretSingle (fuel + 1) st (.unaryOpTT "--" (.identifier name)) =
        some (.err "Invalid operation -- for type" st)) ∧
    (∀ (fuel : Nat) (st : St) (name : String) (v : RuntimeValue)
      (i k : Int),
      alookup st.vars name = some (.constValue v) →
      interpretSingle (fuel + 2) st
        (.assign (.index (.identifier name) (.number i)) (.number k)) =
        some (.err
          "Index assignment only supported for arrays with numeric indices"
          st)) := by
  refine ⟨?_, ?_, ?_⟩
  · intro fuel st name v rhs v1 st1 hr hl
    simp [interpretSingle, ibind, hr, hl, assignIdent]
  · intro fuel st name v h
    constructor <;> simp [interpretSingle, ibind, h]
  · intro fuel st name v i k h
    simp [interpretSingle, ibind, h, assignIndexFin]

/-- C8 witness: the three clauses of `C8_thm` on a concrete const
binding. -/
theorem C8_witness :
    interpretSingle 3 ⟨[("c", .constValue (.number 7))], [], []⟩
      (.number 8) =
      some (.ok (.number 8) ⟨[("c", .constValue (.number 7))], [], []⟩) ∧
    interpretSingle 4 ⟨[("c", .constValue (.number 7))], [], []⟩
      (.assign (.identifier "c") (.number 8)) =
      some (.err "Cannot reassign constant c"
        ⟨[("c", .constValue (.number 7))], [], []⟩) ∧
    interpretSingle 4 ⟨[("c", .constValue (.number 7))], [], []⟩
      (.unaryOpTT "++" (.identifier "c")) =
      some (.err "Invalid operation ++ for type"
        ⟨[("c", .constValue (.number 7))], [], []⟩) ∧
    interpretSingle 5 ⟨[("c", .constValue (.number 7))], [], []⟩
      (.assign (.index (.identifier "c") (.number 0)) (.number 1)) =
      some (.err
        "Index assignment only supported for arrays with numeric indices"
        ⟨[("c", .constValue (.number 7))], [], []⟩) :=
  ⟨rfl,
   C8_thm.1 3 ⟨[("c", .constValue (.number 7))], [], []⟩ "c" (.number 7)
     (.number 8) (.number 8) ⟨[("c", .constValue (.number 7))], [], []⟩
     rfl rfl,
   (C8_thm.2.1 3 ⟨[("c", .constValue (.number 7))], [], []⟩ "c"
     (.number 7) rfl).1,
   C8_thm.2.2 3 ⟨[("c", .constValue (.number 7))], [], []⟩ "c" (.number 7)
     0 1 rfl⟩

/-! ### C3 — Return propagation and the loop-body exception -/

/-- C3 counterexample: a `Return` inside a for-in loop body does not
short-circuit the loop nor become the call's result: calling `f` with
body `for (i in 2) { printf(5) return 7 }` runs the loop body twice
(stdout gets two `5` lines) and the call evaluates to `Void`, not `7`. -/
theorem C3_counterexample :
    interpretSingle 20
      ⟨[], [("f", ([], [.forIn "i" (.number 2)
        [.print (.number 5), .ret (.number 7)]]))], []⟩
      (.functionCall "f" []) =
      some (.ok .void
        ⟨[], [("f", ([], [.forIn "i" (.number 2)
          [.print (.number 5), .ret (.number 7)]]))], ["5", "5"]⟩) := rfl

/-- C3 (amended): a statement list short-circuits as soon as a statement
produces a `ReturnValue` (the remaining statements are not evaluated),
and a `FunctionCall` unwraps a `ReturnValue` produced by the body; but
the `While`/`For`/`ForIn` evaluators discard their body's block result,
so a `Return` inside a loop body ends only that iteration's block — the
loop keeps iterating and the wrapped value is lost (a call running
`for (i in 3) { return 7 }` evaluates to `Void`). -/
theorem C3_thm :
    (∀ (fuel : Nat) (st : St) (n : AstNode) (rest : List AstNode)
      (v : RuntimeValue) (st1 : St),
      interpretSingle fuel st n = some (.ok (.returnValue v) st1) →
      interpret (fuel + 1) st (n :: rest) =
        some (.ok (.returnValue v) st1)) ∧
    interpretSingle 30
      ⟨[], [("g", ([], [.forIn "i" (.number 3) [.ret (.number 7)]]))], []⟩
      (.functionCall "g" []) =
      some (.ok .void
        ⟨[], [("g", ([], [.forIn "i" (.number 3) [.ret (.number 7)]]))],
          []⟩) ∧
    interpretSingle 10 ⟨[], [("h", ([], [.ret (.number 7)]))], []⟩
      (.functionCall "h" []) =
      some (.ok (.number 7) ⟨[], [("h", ([], [.ret (.number 7)]))], []⟩) := by
  refine ⟨?_, rfl, rfl⟩
  intro fuel st n rest v st1 h
  cases rest <;> simp [interpret, ibind, h]

/-- C3 witness: the statement-list clause of `C3_thm`: `return 7`
followed by a `printf` statement stops before the `printf`. -/
theorem C3_witness :
    interpretSingle 2 st0 (.ret (.number 7)) =
      some (.ok (.returnValue (.number 7)) st0) ∧
    interpret 3 st0 [.ret (.number 7), .print (.number 1)] =
      some (.ok (.returnValue (.number 7)) st0) :=
  ⟨rfl, C3_thm.1 2 st0 (.ret (.number 7)) [.print (.number 1)]
    (.number 7) st0 rfl⟩

/-- Inversion for `ibind`: a successful bind means the first computation
succeeded and the continuation produced the final result. -/
theorem ibind_ok {α β : Type} {x : IRes α} {f : α → St → IRes β}
    {v : β} {st1 : St} (h : ibind x f = some (.ok v st1)) :
    ∃ a s, x = some (.ok a s) ∧ f a s = some (.ok v st1) := by
  cases x with
  | none => simp [ibind] at h
  | some step =>
    cases step with
    | err e s => simp [ibind] at h
    | ok a s => exact ⟨a, s, rfl, h⟩

/-- Every successful identifier-assignment evaluates to `Void`. -/
theorem assignIdent_ok {id : String} {rv : RuntimeValue} {s : St}
    {v : RuntimeValue} {s1 : St}
    (h : assignIdent id rv s = some (.ok v s1)) : v = .void := by
  unfold assignIdent at h
  repeat' split at h
  all_goals simp_all

/-- Every successful index-assignment evaluates to an `Array`. -/
theorem assignIndexFin_ok {aE : AstNode} {rv av iv : RuntimeValue} {s : St}
    {v : RuntimeValue} {s1 : St}
    (h : assignIndexFin aE rv av iv s = some (.ok v s1)) :
    ∃ elems, v = .array elems := by
  unfold assignIndexFin at h
  repeat' split at h
  all_goals simp_all
  all_goals exact ⟨_, h.1.symm⟩

/-! ### C10 — the two assignment forms evaluate to different values -/

/-- C10: every successful `Assign` to an identifier evaluates to `Void`,
while every successful `Assign` to an `Index` expression evaluates to an
`Array` value — the entire updated array, not `Void` and not the assigned
element (shown concretely for `a[0] = 9` on `a = [1, 2]`, which evaluates
to `[9, 2]`). -/
theorem C10_thm :
    (∀ (fuel : Nat) (st : St) (id : String) (rhs : AstNode)
      (v : RuntimeValue) (st1 : St),
      interpretSingle fuel st (.assign (.identifier id) rhs) =
        some (.ok v st1) → v = .void) ∧
    (∀ (fuel : Nat) (st : St) (aE iE rhs : AstNode) (v : RuntimeValue)
      (st1 : St),
      interpretSingle fuel st (.assign (.index aE iE) rhs) =
        some (.ok v st1) →
      (∃ elems, v = .array elems) ∧ v ≠ .void) ∧
    interpretSingle 10 ⟨[("a", .array [.number 1, .number 2])], [], []⟩
      (.assign (.index (.identifier "a") (.number 0)) (.number 9)) =
      some (.ok (.array [.number 9, .number 2])
        ⟨[("a", .array [.number 9, .number 2])], [], []⟩) := by
  refine ⟨?_, ?_, rfl⟩
  · intro fuel st id rhs v st1 h
    match fuel with
    | 0 => exact absurd h (by simp [interpretSingle])
    | fuel + 1 =>
      replace h : ibind (interpretSingle fuel st rhs)
          (fun rightVal st1 => assignIdent id rightVal st1) =
          some (.ok v st1) := h
      obtain ⟨rv, s1, hrhs, h⟩ := ibind_ok h
      clear hrhs
      exact assignIdent_ok h
  · intro fuel st aE iE rhs v st1 h
    match fuel with
    | 0 => exact absurd h (by simp [interpretSingle])
    | fuel + 1 =>
      replace h : ibind (interpretSingle fuel st rhs)
          (fun rightVal st1 =>
            ibind (interpretSingle fuel st1 aE) fun arrayVal st2 =>
              ibind (interpretSingle fuel st2 iE) fun idxVal st3 =>
                assignIndexFin aE rightVal arrayVal idxVal st3) =
          some (.ok v st1) := h
      obtain ⟨rv, s1, hrhs, h⟩ := ibind_ok h
      obtain ⟨av, s2, harr, h⟩ := ibind_ok h
      obtain ⟨iv, s3, hidx, h⟩ := ibind_ok h
      clear hrhs harr hidx
      obtain ⟨elems, rfl⟩ := assignIndexFin_ok h
      exact ⟨⟨elems, rfl⟩, by simp⟩

/-- C10 witness: both general clauses at concrete assignments. -/
theorem C10_witness :
    interpretSingle 5 st0 (.assign (.identifier "y") (.number 5)) =
      some (.ok .void ⟨[("y", .number 5)], [], []⟩) ∧
    (RuntimeValue.void = .void) ∧
    ((∃ elems, RuntimeValue.array [.number 9, .number 2] = .array elems) ∧
      RuntimeValue.array [.number 9, .number 2] ≠ .void) :=
  ⟨rfl,
   C10_thm.1 5 st0 "y" (.number 5) .void ⟨[("y", .number 5)], [], []⟩ rfl,
   C10_thm.2.1 10 ⟨[("a", .array [.number 1, .number 2])], [], []⟩
     (.identifier "a") (.number 0) (.number 9)
     (.array [.number 9, .number 2])
     ⟨[("a", .array [.number 9, .number 2])], [], []⟩ rfl⟩

/-! ### C9 — `for (i in N)` iterates 1..N -/

/-- Lookup after an insert of the same key. -/
theorem alookup_ainsert_self {α : Type} (k : String) (val : α)
    (m : List (String × α)) : alookup (ainsert k val m) k = some val := by
  simp [ainsert, alookup]

/-- One body execution of `for (v in N) { printf(v) }`: prints the bound
value and leaves variables and functions as they were after the loop
variable was bound. -/
theorem forIn_print_body (g : Nat) (v : String) (x : Int) (st : St) :
    interpret (g + 3) ⟨ainsert v (.number x) st.vars, st.functions,
      st.output⟩ [.print (.identifier v)] =
      some (.ok .void ⟨ainsert v (.number x) st.vars, st.functions,
        st.output ++ [toString x]⟩) := by
  have h2 : interpretSingle (g + 2)
      (⟨ainsert v (.number x) st.vars, st.functions, st.output⟩ : St)
      (.print (.identifier v)) =
      some (.ok .void ⟨ainsert v (.number x) st.vars, st.functions,
        st.output ++ [toString x]⟩) := by
    simp [interpretSingle, ibind, alookup_ainsert_self, renderTop]
  simp [interpret, ibind, h2]

/-- The for-in loop over the successive Number values `ns`, with body
`printf(i)`: runs once per value in order, printing each, and evaluates
to `Void`. -/
theorem forInLoop_print (v : String) :
    ∀ (ns : List Int) (st : St) (fuel : Nat), ns.length + 3 ≤ fuel →
    forInLoop fuel st v [.print (.identifier v)]
      (ns.map (fun n => .number n)) =
      some (.ok .void
        ⟨ns.foldl (fun m n => ainsert v (.number n) m) st.vars,
          st.functions, st.output ++ ns.map (fun n => toString n)⟩) := by
  intro ns
  induction ns with
  | nil =>
    intro st fuel h
    match fuel, h with
    | f + 1, _ => simp [forInLoop]
  | cons x rest ih =>
    intro st fuel h
    simp only [List.length_cons] at h
    match fuel with
    | f + 1 =>
      have hf : rest.length + 3 ≤ f := by omega
      obtain ⟨g, rfl⟩ : ∃ g, f = g + 3 := ⟨f - 3, by omega⟩
      rw [List.map_cons, forInLoop]
      have hbody := forIn_print_body g v x st
      simp only [ibind, hbody]
      rw [ih _ _ hf]
      simp

/-- C9: `for (i in N)` with body `printf(i)` executes the body exactly
`max(0, N)` times, with `i` bound to `Number(1) … Number(N)` in that
order (witnessed by the printed lines), and the `ForIn` node evaluates to
`Void`; the function table and the previously printed output are
preserved. -/
theorem C9_thm (N : Int) (st : St) (fuel : Nat)
    (h : N.toNat + 4 ≤ fuel) :
    ∃ varsF,
      interpretSingle fuel st
        (.forIn "i" (.number N) [.print (.identifier "i")]) =
      some (.ok .void ⟨varsF, st.functions,
        st.output ++
          (List.range N.toNat).map (fun (k : Nat) => toString (1 + (k : Int)))⟩) := by
  obtain ⟨f, rfl⟩ : ∃ f, fuel = f + 1 := ⟨fuel - 1, by omega⟩
  obtain ⟨f1, rfl⟩ : ∃ f1, f = f1 + 1 := ⟨f - 1, by omega⟩
  refine ⟨((List.range N.toNat).map (fun (k : Nat) => 1 + (k : Int))).foldl
    (fun m n => ainsert "i" (.number n) m) st.vars, ?_⟩
  have hiter : interpretSingle (f1 + 1) st (.number N) =
      some (.ok (.number N) st) := by
    simp [interpretSingle]
  simp only [interpretSingle, ibind, hiter, interpret_constant]
  have hlist : (List.range N.toNat).map
      (fun (k : Nat) => (RuntimeValue.number (1 + (k : Int)))) =
      ((List.range N.toNat).map (fun (k : Nat) => 1 + (k : Int))).map
        (fun n => .number n) := by
    simp [List.map_map]
  have hlen : ((List.range N.toNat).map (fun (k : Nat) => 1 + (k : Int))).length + 3
      ≤ f1 + 1 := by
    rw [List.length_map, List.length_range]
    omega
  rw [hlist, forInLoop_print "i" _ _ _ hlen]
  simp [List.map_map]

/-- C9 witness: `C9_thm` at `N = 3` from the fresh state. -/
theorem C9_witness :
    ((3 : Int).toNat + 4 ≤ 10) ∧
    ∃ varsF,
      interpretSingle 10 st0
        (.forIn "i" (.number 3) [.print (.identifier "i")]) =
      some (.ok .void ⟨varsF, st0.functions,
        st0.output ++
          (List.range (3 : Int).toNat).map
            (fun (k : Nat) => toString (1 + (k : Int)))⟩) :=
  ⟨by decide, C9_thm 3 st0 10 (by decide)⟩
